import Mathlib

/-!
# Verification of the meteor-demo trajectory/impact engine

Shallow embedding of the physics, prediction and lifecycle code of the
meteor demo (`main.js` and `src/app.js`), with theorems settling the
frozen specification claims.

Numbers are modelled as real numbers (the JavaScript code computes with
floating point; exact rounding behaviour is outside the model).
Three.js vectors are modelled by `Vec3` with componentwise arithmetic;
`Vector3.length` is the Euclidean norm and `Vector3.normalize` divides
by `length() || 1`, exactly as in three.js.
-/

noncomputable section

open Classical

/-- A three.js `Vector3`: three real components. -/
@[ext] structure Vec3 where
  x : ℝ
  y : ℝ
  z : ℝ

namespace Vec3

instance : Add Vec3 := ⟨fun a b => ⟨a.x + b.x, a.y + b.y, a.z + b.z⟩⟩
instance : SMul ℝ Vec3 := ⟨fun c a => ⟨c * a.x, c * a.y, c * a.z⟩⟩
instance : Zero Vec3 := ⟨⟨0, 0, 0⟩⟩
instance : Sub Vec3 := ⟨fun a b => ⟨a.x - b.x, a.y - b.y, a.z - b.z⟩⟩

@[simp] theorem add_x (a b : Vec3) : (a + b).x = a.x + b.x := rfl
@[simp] theorem add_y (a b : Vec3) : (a + b).y = a.y + b.y := rfl
@[simp] theorem add_z (a b : Vec3) : (a + b).z = a.z + b.z := rfl
@[simp] theorem smul_x (c : ℝ) (a : Vec3) : (c • a).x = c * a.x := rfl
@[simp] theorem smul_y (c : ℝ) (a : Vec3) : (c • a).y = c * a.y := rfl
@[simp] theorem smul_z (c : ℝ) (a : Vec3) : (c • a).z = c * a.z := rfl
@[simp] theorem sub_x (a b : Vec3) : (a - b).x = a.x - b.x := rfl
@[simp] theorem sub_y (a b : Vec3) : (a - b).y = a.y - b.y := rfl
@[simp] theorem sub_z (a b : Vec3) : (a - b).z = a.z - b.z := rfl
@[simp] theorem zero_x : (0 : Vec3).x = 0 := rfl
@[simp] theorem zero_y : (0 : Vec3).y = 0 := rfl
@[simp] theorem zero_z : (0 : Vec3).z = 0 := rfl

theorem mk_add (a b c d e f : ℝ) :
    (⟨a, b, c⟩ + ⟨d, e, f⟩ : Vec3) = ⟨a + d, b + e, c + f⟩ := rfl

theorem mk_smul (k a b c : ℝ) : (k • (⟨a, b, c⟩ : Vec3)) = ⟨k * a, k * b, k * c⟩ := rfl

theorem smul_smul (c d : ℝ) (a : Vec3) : c • d • a = (c * d) • a := by
  ext <;> simp [mul_assoc]

theorem smul_add (c : ℝ) (a b : Vec3) : c • (a + b) = c • a + c • b := by
  ext <;> simp [mul_add]

@[simp] theorem smul_zero (c : ℝ) : c • (0 : Vec3) = 0 := by ext <;> simp

@[simp] theorem one_smul (a : Vec3) : (1 : ℝ) • a = a := by ext <;> simp

/-- `Vector3.length()`: Euclidean norm. -/
def len (a : Vec3) : ℝ := Real.sqrt (a.x * a.x + a.y * a.y + a.z * a.z)

/-- `Vector3.normalize()`: three.js divides by `length() || 1`, so the zero
vector is left unchanged. -/
def normalize (a : Vec3) : Vec3 := (1 / (if len a = 0 then 1 else len a)) • a

theorem len_nonneg (a : Vec3) : 0 ≤ len a := Real.sqrt_nonneg _

theorem len_eq_zero_iff (a : Vec3) : len a = 0 ↔ a = 0 := by
  unfold len
  constructor
  · intro h
    have hsum : a.x * a.x + a.y * a.y + a.z * a.z = 0 := by
      have hx : 0 ≤ a.x * a.x := mul_self_nonneg _
      have hy : 0 ≤ a.y * a.y := mul_self_nonneg _
      have hz : 0 ≤ a.z * a.z := mul_self_nonneg _
      have h0 : 0 ≤ a.x * a.x + a.y * a.y + a.z * a.z := by linarith
      by_contra hne
      have hpos : 0 < a.x * a.x + a.y * a.y + a.z * a.z := lt_of_le_of_ne h0 (Ne.symm hne)
      exact absurd h (ne_of_gt (Real.sqrt_pos.mpr hpos))
    have hx : a.x = 0 := by nlinarith [mul_self_nonneg a.x, mul_self_nonneg a.y, mul_self_nonneg a.z]
    have hy : a.y = 0 := by nlinarith [mul_self_nonneg a.x, mul_self_nonneg a.y, mul_self_nonneg a.z]
    have hz : a.z = 0 := by nlinarith [mul_self_nonneg a.x, mul_self_nonneg a.y, mul_self_nonneg a.z]
    ext <;> simp [hx, hy, hz]
  · intro h
    subst h
    simp [Real.sqrt_eq_zero']

theorem len_smul (c : ℝ) (a : Vec3) : len (c • a) = |c| * len a := by
  unfold len
  have : (c • a).x * (c • a).x + (c • a).y * (c • a).y + (c • a).z * (c • a).z
      = c ^ 2 * (a.x * a.x + a.y * a.y + a.z * a.z) := by
    simp; ring
  rw [this, Real.sqrt_mul (sq_nonneg c), Real.sqrt_sq_eq_abs]

/-- The norm of a vector on the positive x-axis. -/
theorem len_axis_x {a : ℝ} (h : 0 ≤ a) : len ⟨a, 0, 0⟩ = a := by
  unfold len
  simp only [mul_zero, add_zero]
  exact Real.sqrt_mul_self h

/-- The norm of a vector on the z-axis. -/
theorem len_axis_z (a : ℝ) : len ⟨0, 0, a⟩ = |a| := by
  unfold len
  simp only [mul_zero, zero_add, zero_mul]
  rw [← Real.sqrt_sq_eq_abs, sq]

theorem len_normalize {a : Vec3} (h : a ≠ 0) : len (normalize a) = 1 := by
  have hl : len a ≠ 0 := fun h0 => h ((len_eq_zero_iff a).mp h0)
  have hp : 0 < len a := lt_of_le_of_ne (len_nonneg a) (Ne.symm hl)
  unfold normalize
  rw [if_neg hl, len_smul, abs_of_pos (div_pos one_pos hp)]
  field_simp

theorem normalize_smul_pos {c : ℝ} (hc : 0 < c) {u : Vec3} (hu : len u = 1) :
    normalize (c • u) = u := by
  have hlen : len (c • u) = c := by rw [len_smul, abs_of_pos hc, hu, mul_one]
  unfold normalize
  rw [hlen, if_neg (ne_of_gt hc), smul_smul]
  have : 1 / c * c = 1 := by field_simp
  rw [this, one_smul]

theorem normalize_axis_x {a : ℝ} (h : 0 < a) : normalize ⟨a, 0, 0⟩ = ⟨1, 0, 0⟩ := by
  have h1 : len (⟨1, 0, 0⟩ : Vec3) = 1 := len_axis_x zero_le_one
  have : (⟨a, 0, 0⟩ : Vec3) = a • ⟨1, 0, 0⟩ := by ext <;> simp
  rw [this, normalize_smul_pos h h1]

end Vec3

open Vec3

/-! ## Physical constants (from `main.js` / `src/app.js`) -/

/-- `G = 6.67430e-11`, the gravitational constant. -/
def Gconst : ℝ := 6.67430e-11

/-- `earthMass = 5.972e24` kg. -/
def earthMass : ℝ := 5.972e24

/-- `earthRadiusMeters = 6371000` m. -/
def earthRadiusMeters : ℝ := 6371000

/-- `SCENE_SCALE = 1e6` meters per scene unit. -/
def SCENE_SCALE : ℝ := 1e6

/-- `earthRadius = 6371 / 1000` scene units. -/
def earthRadius : ℝ := 6371 / 1000

/-- `gravityStrength = 0.02`, the hand-tuned Arcade gravity constant. -/
def gravityStrength : ℝ := 0.02

/-- The atmospheric density computation appearing inline in the realistic
`accel` closures: `Math.max(0, rho0 * Math.exp(-h/H))` with `rho0 = 1.225`
and `H = 8000`.  The altitude `h` is used as given; it is not clamped. -/
def atmosphericDensity (h : ℝ) : ℝ := max 0 (1.225 * Real.exp (-h / 8000))

/-! ## Integrators -/

/-- The realistic-model derivative `accel(p, vlocal)` (the closure in the
Realistic branch of `animate` in `main.js`): inverse-square gravity plus
quadratic drag with `Cd = 1.0`, the local density taken at altitude
`|p| - earthRadiusMeters`, and the velocity magnitude floored at `1e-6`. -/
def realAccel (area mass : ℝ) (p vlocal : Vec3) : Vec3 :=
  let rmag := len p
  let g := (-(Gconst * earthMass) / (rmag * rmag * rmag)) • p
  let h := rmag - earthRadiusMeters
  let rho := atmosphericDensity h
  let vMag := max 1e-6 (len vlocal)
  let drag := (-0.5 * rho * vMag * 1.0 * area / mass) • vlocal
  g + drag

/-- The Arcade acceleration
`pos.clone().normalize().multiplyScalar(-gravityStrength/(r*r))`. -/
def arcadeAccel (p : Vec3) : Vec3 :=
  (-gravityStrength / (len p * len p)) • normalize p

/-- One semi-implicit Euler update of the Arcade model: the velocity is
incremented by `arcadeAccel` times `k`, then the position by the new
velocity times `k`.  The live Arcade branches of `animate` use
`k = simSpeed`; the loop of `App.updatePredictedImpact` uses
`k = 0.02 * simSpeed`. -/
def arcadeEulerStep (k : ℝ) (s : Vec3 × Vec3) : Vec3 × Vec3 :=
  let v' := s.2 + k • arcadeAccel s.1
  (s.1 + k • v', v')

/-- One classical fourth-order Runge-Kutta step for the coupled system
`dx/dt = v`, `dv/dt = f x v`: the derivative is evaluated at the four RK4
stages and the stage increments are combined with weights
`1/6, 2/6, 2/6, 1/6`. -/
def rk4Step (f : Vec3 → Vec3 → Vec3) (dt : ℝ) (p v : Vec3) : Vec3 × Vec3 :=
  let k1v := dt • f p v
  let k1x := dt • v
  let p2 := p + (0.5 : ℝ) • k1x
  let v2 := v + (0.5 : ℝ) • k1v
  let k2v := dt • f p2 v2
  let k2x := dt • v2
  let p3 := p + (0.5 : ℝ) • k2x
  let v3 := v + (0.5 : ℝ) • k2v
  let k3v := dt • f p3 v3
  let k3x := dt • v3
  let p4 := p + k3x
  let v4 := v + k3v
  let k4v := dt • f p4 v4
  let k4x := dt • v4
  let dx := ((1 : ℝ) / 6) • (k1x + (2 : ℝ) • k2x + (2 : ℝ) • k3x + k4x)
  let dv := ((1 : ℝ) / 6) • (k1v + (2 : ℝ) • k2v + (2 : ℝ) • k3v + k4v)
  (p + dx, v + dv)

/-- The Realistic branch of `animate` in `main.js` (lines 315-364): the
scene position is converted to meters, the RK4 update written out there is
performed with its inline `accel` closure (gravity plus drag using the
meteor's `area` and `mass`), and the new position is converted back to
scene units.  Returns the new scene position and SI velocity. -/
def mainRealisticStep (area mass simSpeed : ℝ) (pos physVelocity : Vec3) : Vec3 × Vec3 :=
  let posMeters := SCENE_SCALE • pos
  let vel := physVelocity
  let dt := 0.02 * simSpeed
  let accel := fun (p vlocal : Vec3) =>
    let rmag := len p
    let g := (-(Gconst * earthMass) / (rmag * rmag * rmag)) • p
    let h := rmag - earthRadiusMeters
    let rho := max 0 (1.225 * Real.exp (-h / 8000))
    let vMag := max 1e-6 (len vlocal)
    let drag := (-0.5 * rho * vMag * 1.0 * area / mass) • vlocal
    g + drag
  let k1v := dt • accel posMeters vel
  let k1x := dt • vel
  let p2 := posMeters + (0.5 : ℝ) • k1x
  let v2 := vel + (0.5 : ℝ) • k1v
  let k2v := dt • accel p2 v2
  let k2x := dt • v2
  let p3 := posMeters + (0.5 : ℝ) • k2x
  let v3 := vel + (0.5 : ℝ) • k2v
  let k3v := dt • accel p3 v3
  let k3x := dt • v3
  let p4 := posMeters + k3x
  let v4 := vel + k3v
  let k4v := dt • accel p4 v4
  let k4x := dt • v4
  let dx := ((1 : ℝ) / 6) • (k1x + (2 : ℝ) • k2x + (2 : ℝ) • k3x + k4x)
  let dv := ((1 : ℝ) / 6) • (k1v + (2 : ℝ) • k2v + (2 : ℝ) • k3v + k4v)
  ((1 / SCENE_SCALE) • (posMeters + dx), vel + dv)

/-- The Realistic branch of `App.animate` in `src/app.js` (lines 978-988):
a single semi-implicit Euler update under gravity alone, with no drag (the
code comments that the original complex integration is replaced by simple
motion for brevity). -/
def appRealisticStep (simSpeed : ℝ) (pos physVelocity : Vec3) : Vec3 × Vec3 :=
  let posMeters := SCENE_SCALE • pos
  let dtInt := 0.02 * simSpeed
  let rmag := len posMeters
  let g := (-(Gconst * earthMass) / (rmag * rmag * rmag)) • posMeters
  let v' := physVelocity + dtInt • g
  let posMeters' := posMeters + dtInt • v'
  ((1 / SCENE_SCALE) • posMeters', v')

/-! ## Ballistic predictor -/

/-- The RK4 body of the Realistic branch of `updatePredictedImpact` in
`main.js`; its `accel` closure ends the drag scalar in `* 1.0 / 1.0`,
omitting the projectile cross-section and mass ("area/mass omitted for
prediction simplification").  The state is (position in meters, SI
velocity). -/
def mainPredRealisticStep (simSpeed : ℝ) (s : Vec3 × Vec3) : Vec3 × Vec3 :=
  let dt := 0.02 * simSpeed
  let accel := fun (p vv : Vec3) =>
    let rmag := len p
    let g := (-(Gconst * earthMass) / (rmag * rmag * rmag)) • p
    let h := rmag - earthRadiusMeters
    let rho := max 0 (1.225 * Real.exp (-h / 8000))
    let vmag := max 1e-6 (len vv)
    let drag := (-0.5 * rho * vmag * 1.0 * 1.0 / 1.0) • vv
    g + drag
  let pM := s.1
  let vM := s.2
  let k1v := dt • accel pM vM
  let k1x := dt • vM
  let p2 := pM + (0.5 : ℝ) • k1x
  let v2 := vM + (0.5 : ℝ) • k1v
  let k2v := dt • accel p2 v2
  let k2x := dt • v2
  let p3 := pM + (0.5 : ℝ) • k2x
  let v3 := vM + (0.5 : ℝ) • k2v
  let k3v := dt • accel p3 v3
  let k3x := dt • v3
  let p4 := pM + k3x
  let v4 := vM + k3v
  let k4v := dt • accel p4 v4
  let k4x := dt • v4
  let dx := ((1 : ℝ) / 6) • (k1x + (2 : ℝ) • k2x + (2 : ℝ) • k3x + k4x)
  let dv := ((1 : ℝ) / 6) • (k1v + (2 : ℝ) • k2v + (2 : ℝ) • k3v + k4v)
  (pM + dx, vM + dv)

/-- The RK4 body of the Arcade branch of `updatePredictedImpact` in
`main.js`; the inline acceleration lambda is `arcadeAccel` and does not
depend on the velocity.  The state is (scene position, scene velocity). -/
def mainPredArcadeStep (simSpeed : ℝ) (s : Vec3 × Vec3) : Vec3 × Vec3 :=
  let dt := 0.02 * simSpeed
  let pos := s.1
  let v := s.2
  let a1 := arcadeAccel pos
  let k1v := dt • a1
  let k1x := dt • v
  let p2 := pos + (0.5 : ℝ) • k1x
  let v2 := v + (0.5 : ℝ) • k1v
  let a2 := arcadeAccel p2
  let k2v := dt • a2
  let k2x := dt • v2
  let p3 := pos + (0.5 : ℝ) • k2x
  let v3 := v + (0.5 : ℝ) • k2v
  let a3 := arcadeAccel p3
  let k3v := dt • a3
  let k3x := dt • v3
  let p4 := pos + k3x
  let v4 := v + k3v
  let a4 := arcadeAccel p4
  let k4v := dt • a4
  let k4x := dt • v4
  let dx := ((1 : ℝ) / 6) • (k1x + (2 : ℝ) • k2x + (2 : ℝ) • k3x + k4x)
  let dv := ((1 : ℝ) / 6) • (k1v + (2 : ℝ) • k2v + (2 : ℝ) • k3v + k4v)
  (pos + dx, v + dv)

/-- The bounded forward-simulation loop shared by every predictor
implementation: apply the step, return the new state on penetration, stop
with no result on escape, stop with no result when the step budget runs
out.  The loop works only on its own state argument. -/
def predictLoop {α : Type} (F : α → α) (hit esc : α → Prop) : ℕ → α → Option α
  | 0, _ => none
  | n + 1, s =>
    let s' := F s
    if hit s' then some s'
    else if esc s' then none
    else predictLoop F hit esc n s'

/-- The Realistic branch of `updatePredictedImpact` in `main.js`: simulate
in meters from the camera toward the cursor at the given launch speed, for
up to 2000 RK4 steps; penetration when the scene radius drops below
`earthRadius + 0.2` (the impact point is the position rescaled to scene
units), escape when the scene radius exceeds `1e6`. -/
def mainPredRealistic (simSpeed speed : ℝ) (camera cursor : Vec3) : Option Vec3 :=
  let dir := normalize (cursor - camera)
  let originM := SCENE_SCALE • camera
  let velM := SCENE_SCALE • (speed • dir)
  Option.map (fun s => (1 / SCENE_SCALE) • s.1)
    (predictLoop (mainPredRealisticStep simSpeed)
      (fun s => len s.1 / SCENE_SCALE < earthRadius + 0.2)
      (fun s => len s.1 / SCENE_SCALE > 1e6)
      2000 (originM, velM))

/-- The Arcade branch of `updatePredictedImpact` in `main.js`: simulate in
scene units for up to 2000 RK4 steps; penetration below
`earthRadius + 0.2`, escape beyond `1e4`. -/
def mainPredArcade (simSpeed speed : ℝ) (camera cursor : Vec3) : Option Vec3 :=
  let dir := normalize (cursor - camera)
  Option.map Prod.fst
    (predictLoop (mainPredArcadeStep simSpeed)
      (fun s => len s.1 < earthRadius + 0.2)
      (fun s => len s.1 > 1e4)
      2000 (camera, speed • dir))

/-- `updatePredictedImpact` from `main.js`: chooses the Realistic or the
Arcade forward simulation according to the `realistic` flag. -/
def mainUpdatePredictedImpact (realistic : Bool) (simSpeed speed : ℝ)
    (camera cursor : Vec3) : Option Vec3 :=
  if realistic then mainPredRealistic simSpeed speed camera cursor
  else mainPredArcade simSpeed speed camera cursor

/-- `App.updatePredictedImpact` from `src/app.js` (lines 1119-1138): a
single Euler loop in scene units with step `0.02 * simSpeed`, up to 2000
steps; penetration below `earthRadius + 0.2`, escape beyond `1e4`. -/
def appUpdatePredictedImpact (simSpeed speed : ℝ) (camera cursor : Vec3) : Option Vec3 :=
  let dir := normalize (cursor - camera)
  Option.map Prod.fst
    (predictLoop (arcadeEulerStep (0.02 * simSpeed))
      (fun s => len s.1 < earthRadius + 0.2)
      (fun s => len s.1 > 1e4)
      2000 (camera, speed • dir))

/-! ## Projectile state and lifecycle (from `App` in `src/app.js`) -/

/-- One live projectile, as stored in the `meteors` array by
`App.shootMeteor`.  The cosmetic tumble state (mesh quaternion,
`angularVelocity`) is decorative, is not coupled to the trajectory and is
not modelled.  Every spawned meteor carries a `physVelocity`, so the field
is plain here; the runtime presence guard on `physVelocity` is modelled in
`speedAtImpactSel`. -/
structure Meteor where
  pos : Vec3
  vel : Vec3
  physVel : Vec3
  mass : ℝ
  area : ℝ
  size : ℝ
  ttl : ℝ
  fading : Bool
  opacity : ℝ
  active : Bool

/-- An impact event: impact point (scene units), kinetic energy in Joules
and its TNT equivalent in kilotons. -/
structure ImpactEvent where
  point : Vec3
  kineticEnergyJoules : ℝ
  tntEquivalentKilotons : ℝ

/-- The impact-speed selection
`meteor.physVelocity ? meteor.physVelocity.length() : meteor.velocity.length() * SCENE_SCALE`:
the SI velocity magnitude whenever a `physVelocity` is present, otherwise
the display velocity magnitude rescaled by `SCENE_SCALE`. -/
def speedAtImpactSel (physVelocity : Option Vec3) (velocity : Vec3) : ℝ :=
  match physVelocity with
  | some pv => len pv
  | none => len velocity * SCENE_SCALE

/-- One per-frame update of a single meteor by `App.animate` in
`src/app.js` (first revision, lines 960-1025): skip inactive entries;
record `r` from the pre-move position; move (semi-implicit Euler in both
the Realistic and the Arcade branch); decrement the TTL by `dt` and start
fading at `ttl <= 0`; while fading, reduce opacity by `0.5 * dt`
(`opacity || 1` guards a falsy opacity) and deactivate at opacity 0;
finally test `r < earthRadius + 0.2` and on impact deactivate and emit an
`ImpactEvent` with `KE = 0.5 * (mass || 1) * speed^2` and
`TNT = KE / 4.184e9`. -/
def appTickMeteor (realistic : Bool) (simSpeed dt : ℝ) (m : Meteor) :
    Meteor × Option ImpactEvent :=
  if m.active = false then (m, none) else
  let r := len m.pos
  let moved :=
    if realistic then
      let s' := appRealisticStep simSpeed m.pos m.physVel
      (s'.1, m.vel, s'.2)
    else
      let s' := arcadeEulerStep simSpeed (m.pos, m.vel)
      (s'.1, s'.2, m.physVel)
  let pos' := moved.1
  let vel' := moved.2.1
  let phys' := moved.2.2
  let ttl' := m.ttl - dt
  let fading' := if ttl' ≤ 0 then true else m.fading
  let faded :=
    if fading' then
      let o := max 0 ((if m.opacity = 0 then 1 else m.opacity) - 0.5 * dt)
      (o, if o ≤ 0 then false else m.active)
    else (m.opacity, m.active)
  let opacity' := faded.1
  let active' := faded.2
  if r < earthRadius + 0.2 then
    let speedAtImpact := speedAtImpactSel (some phys') vel'
    let ke := 0.5 * (if m.mass = 0 then 1 else m.mass) * speedAtImpact * speedAtImpact
    ({ m with pos := pos', vel := vel', physVel := phys', ttl := ttl',
              fading := fading', opacity := opacity', active := false },
      some { point := pos', kineticEnergyJoules := ke,
             tntEquivalentKilotons := ke / 4.184e9 })
  else
    ({ m with pos := pos', vel := vel', physVel := phys', ttl := ttl',
              fading := fading', opacity := opacity', active := active' },
      none)

/-- The meteor part of one `App.animate` frame, state only. -/
def appTickM (realistic : Bool) (simSpeed dt : ℝ) (m : Meteor) : Meteor :=
  (appTickMeteor realistic simSpeed dt m).1

/-- `App.shootMeteor` from `src/app.js` (lines 428-468): aim from the
camera toward the cursor (or toward the predicted-impact marker when it is
visible), derive mass and cross-section from the diameter using rock
density 3000 kg/m^3, store the SI launch velocity (`speed * SCENE_SCALE`)
and a scene velocity slowed by the factor 0.6, with TTL 800, full opacity
and the active flag set.  No parameter is validated. -/
def spawnMeteor (camera cursor : Vec3) (speed size : ℝ) (marker : Option Vec3) : Meteor :=
  let dir := match marker with
    | some mp => normalize (mp - camera)
    | none => normalize (cursor - camera)
  let mass := 3000 * (((4 : ℝ) / 3) * Real.pi * (size / 2) ^ 3)
  let area := Real.pi * (size / 2) ^ 2
  { pos := camera
    vel := (speed * 0.6) • dir
    physVel := (speed * SCENE_SCALE) • dir
    mass := mass
    area := area
    size := size
    ttl := 800
    fading := false
    opacity := 1
    active := true }

/-- The engine-level state visible to the predictor and the spawn
operation: the live projectile set, the predicted-impact marker, and the
inputs (camera, cursor, sliders, flags) they read. -/
structure World where
  meteors : List Meteor
  marker : Option Vec3
  camera : Vec3
  cursorPos : Vec3
  speedSlider : ℝ
  sizeSlider : ℝ
  simSpeed : ℝ
  realistic : Bool

/-- One call of `updatePredictedImpact` at the world level: it recomputes
the predicted-impact marker from the current aim inputs and touches
nothing else. -/
def updatePredictedImpactW (w : World) : World :=
  { w with marker := (mainUpdatePredictedImpact w.realistic w.simSpeed
      w.speedSlider w.camera w.cursorPos) }

/-- One call of `App.shootMeteor` at the world level: it pushes the newly
spawned meteor onto the live set. -/
def shootMeteorW (w : World) : World :=
  { w with meteors := w.meteors ++
      [spawnMeteor w.camera w.cursorPos w.speedSlider w.sizeSlider w.marker] }

/-! ## Helper lemmas -/

theorem len_zero_vec : len (0 : Vec3) = 0 := by
  unfold len
  simp

theorem len_axis_abs (a : ℝ) : len ⟨a, 0, 0⟩ = |a| := by
  unfold len
  simp only [mul_zero, add_zero]
  rw [← Real.sqrt_sq_eq_abs, sq]

/-- `mainRealisticStep` is exactly one `rk4Step` of `realAccel`, performed
in meters. -/
theorem mainRealisticStep_eq_rk4 (area mass simSpeed : ℝ) (pos physVelocity : Vec3) :
    mainRealisticStep area mass simSpeed pos physVelocity =
      ((1 / SCENE_SCALE) •
        (rk4Step (realAccel area mass) (0.02 * simSpeed) (SCENE_SCALE • pos) physVelocity).1,
       (rk4Step (realAccel area mass) (0.02 * simSpeed) (SCENE_SCALE • pos) physVelocity).2) := rfl

/-- The predictor's Realistic RK4 body is `rk4Step` of `realAccel 1 1`:
the same derivative family as the live Realistic integrator with the
cross-section and mass both replaced by `1.0`. -/
theorem mainPredRealisticStep_eq_rk4 (simSpeed : ℝ) (s : Vec3 × Vec3) :
    mainPredRealisticStep simSpeed s =
      rk4Step (realAccel 1 1) (0.02 * simSpeed) s.1 s.2 := by
  have hf : (fun (p vv : Vec3) =>
      let rmag := len p
      let g := (-(Gconst * earthMass) / (rmag * rmag * rmag)) • p
      let h := rmag - earthRadiusMeters
      let rho := max 0 (1.225 * Real.exp (-h / 8000))
      let vmag := max 1e-6 (len vv)
      let drag := (-0.5 * rho * vmag * 1.0 * 1.0 / 1.0) • vv
      g + drag) = realAccel 1 1 := by
    funext p vv
    unfold realAccel atmosphericDensity
    ext <;> simp <;> ring
  unfold mainPredRealisticStep rk4Step
  rw [hf]

/-- The predictor's Arcade RK4 body is `rk4Step` of the (velocity
independent) Arcade acceleration. -/
theorem mainPredArcadeStep_eq_rk4 (simSpeed : ℝ) (s : Vec3 × Vec3) :
    mainPredArcadeStep simSpeed s =
      rk4Step (fun p _ => arcadeAccel p) (0.02 * simSpeed) s.1 s.2 := rfl

/-- A scalar mirror of `rk4Step` for motion restricted to the x-axis,
stated with the four stage accelerations given as explicit hypotheses. -/
theorem rk4Step_axis (f : Vec3 → Vec3 → Vec3) (dt p v A1 A2 A3 A4 : ℝ)
    (h1 : f ⟨p, 0, 0⟩ ⟨v, 0, 0⟩ = ⟨A1, 0, 0⟩)
    (h2 : f ⟨p + 0.5 * (dt * v), 0, 0⟩ ⟨v + 0.5 * (dt * A1), 0, 0⟩ = ⟨A2, 0, 0⟩)
    (h3 : f ⟨p + 0.5 * (dt * (v + 0.5 * (dt * A1))), 0, 0⟩ ⟨v + 0.5 * (dt * A2), 0, 0⟩
        = ⟨A3, 0, 0⟩)
    (h4 : f ⟨p + dt * (v + 0.5 * (dt * A2)), 0, 0⟩ ⟨v + dt * A3, 0, 0⟩ = ⟨A4, 0, 0⟩) :
    rk4Step f dt ⟨p, 0, 0⟩ ⟨v, 0, 0⟩ =
      (⟨p + (1 : ℝ) / 6 * (dt * v + 2 * (dt * (v + 0.5 * (dt * A1)))
          + 2 * (dt * (v + 0.5 * (dt * A2))) + dt * (v + dt * A3)), 0, 0⟩,
       ⟨v + (1 : ℝ) / 6 * (dt * A1 + 2 * (dt * A2) + 2 * (dt * A3) + dt * A4), 0, 0⟩) := by
  unfold rk4Step
  simp only [mk_smul, mk_add, mul_zero, add_zero, zero_add, h1]
  simp only [h2]
  simp only [mk_smul, mk_add, mul_zero, add_zero, zero_add, h3]
  simp only [mk_smul, mk_add, mul_zero, add_zero, zero_add, h4]

/-- `realAccel` on x-axis states, componentwise. -/
theorem realAccel_axis (area mass a b : ℝ) :
    realAccel area mass ⟨a, 0, 0⟩ ⟨b, 0, 0⟩ =
      ⟨-(Gconst * earthMass) / (|a| * |a| * |a|) * a +
        -0.5 * atmosphericDensity (|a| - earthRadiusMeters) * max 1e-6 |b| * 1.0 * area / mass * b,
       0, 0⟩ := by
  unfold realAccel
  rw [len_axis_abs a, len_axis_abs b]
  ext <;> simp

/-- `arcadeAccel` on x-axis states, componentwise. -/
theorem arcadeAccel_axis (a : ℝ) :
    arcadeAccel ⟨a, 0, 0⟩ =
      ⟨-gravityStrength / (|a| * |a|) * (1 / (if |a| = 0 then 1 else |a|) * a), 0, 0⟩ := by
  unfold arcadeAccel Vec3.normalize
  rw [len_axis_abs a]
  ext <;> simp

/-- Complete characterization of `predictLoop`: it returns `some q` exactly
when, scanning the trajectory of `F` from the start state, a hit is reached
within `fuel` steps before any hit or escape condition stopped the scan
earlier, and `q` is that first hitting state. -/
theorem predictLoop_eq_some_iff {α : Type} (F : α → α) (hit esc : α → Prop) :
    ∀ (fuel : ℕ) (s q : α),
      predictLoop F hit esc fuel s = some q ↔
      ∃ n, n < fuel ∧ hit (F^[n + 1] s) ∧
        (∀ m, m < n → ¬hit (F^[m + 1] s) ∧ ¬esc (F^[m + 1] s)) ∧
        q = F^[n + 1] s := by
  intro fuel
  induction fuel with
  | zero =>
    intro s q
    simp [predictLoop]
  | succ k ih =>
    intro s q
    simp only [predictLoop]
    by_cases h1 : hit (F s)
    · rw [if_pos h1]
      constructor
      · intro h
        refine ⟨0, Nat.succ_pos k, ?_, fun m hm => absurd hm (Nat.not_lt_zero m), ?_⟩
        · simpa using h1
        · simpa using (Option.some.inj h).symm
      · rintro ⟨n, hn, hhit, hmin, hq⟩
        rcases Nat.eq_zero_or_pos n with rfl | hpos
        · simp only [zero_add, Function.iterate_one] at hq
          rw [hq]
        · have := (hmin 0 hpos).1
          simp only [zero_add, Function.iterate_one] at this
          exact absurd h1 this
    · rw [if_neg h1]
      by_cases h2 : esc (F s)
      · rw [if_pos h2]
        constructor
        · intro h; exact absurd h (by simp)
        · rintro ⟨n, hn, hhit, hmin, hq⟩
          rcases Nat.eq_zero_or_pos n with rfl | hpos
          · simp only [zero_add, Function.iterate_one] at hhit
            exact absurd hhit h1
          · have := (hmin 0 hpos).2
            simp only [zero_add, Function.iterate_one] at this
            exact absurd h2 this
      · rw [if_neg h2, ih (F s) q]
        constructor
        · rintro ⟨n, hn, hhit, hmin, hq⟩
          refine ⟨n + 1, by omega, ?_, ?_, ?_⟩
          · rw [Function.iterate_succ_apply]
            exact hhit
          · intro m hm
            rcases Nat.eq_zero_or_pos m with rfl | hpos
            · simpa [Function.iterate_one] using ⟨h1, h2⟩
            · obtain ⟨j, rfl⟩ : ∃ j, m = j + 1 := ⟨m - 1, by omega⟩
              have := hmin j (by omega)
              rw [Function.iterate_succ_apply]
              exact this
          · rw [Function.iterate_succ_apply]
            exact hq
        · rintro ⟨n, hn, hhit, hmin, hq⟩
          cases n with
          | zero =>
            simp only [zero_add, Function.iterate_one] at hhit
            exact absurd hhit h1
          | succ j =>
            refine ⟨j, by omega, ?_, ?_, ?_⟩
            · rw [← Function.iterate_succ_apply]
              exact hhit
            · intro m hm
              have := hmin (m + 1) (by omega)
              rw [Function.iterate_succ_apply] at this
              exact this
            · rw [← Function.iterate_succ_apply]
              exact hq

/-! ## Claim theorems -/

/-- C1 (amended): in `main.js`, every Realistic-model live step advances
(position, velocity) by exactly one classical RK4 step of the coupled
system `dx/dt = v`, `dv/dt = gravity(x) + drag(x, v)` with
`drag = -0.5 * rho(altitude) * |v| * Cd * area / mass * v` and `Cd = 1.0`,
the integration being performed in meters.  (The Realistic branch of
`App.animate` in `src/app.js` instead performs a semi-implicit Euler step
under gravity alone; see the counterexample.) -/
theorem c1_realistic_step_is_rk4 (area mass simSpeed : ℝ) (pos physVelocity : Vec3) :
    mainRealisticStep area mass simSpeed pos physVelocity =
      ((1 / SCENE_SCALE) •
        (rk4Step (realAccel area mass) (0.02 * simSpeed) (SCENE_SCALE • pos) physVelocity).1,
       (rk4Step (realAccel area mass) (0.02 * simSpeed) (SCENE_SCALE • pos) physVelocity).2) :=
  mainRealisticStep_eq_rk4 area mass simSpeed pos physVelocity

/-- C3: running the Ballistic Predictor mutates no live projectile, is
idempotent, and its result does not depend on any previous prediction
state (so identical inputs give identical results). -/
theorem c3_predictor_no_mutation (w : World) :
    (updatePredictedImpactW w).meteors = w.meteors ∧
    updatePredictedImpactW (updatePredictedImpactW w) = updatePredictedImpactW w ∧
    ∀ mk : Option Vec3,
      (updatePredictedImpactW { w with marker := mk }).marker
        = (updatePredictedImpactW w).marker :=
  ⟨rfl, rfl, fun _ => rfl⟩

/-- C4 (amended): the predictor shares the per-tick `dt = 0.02 * simSpeed`
and the RK4 scheme of the live Realistic integrator, but its Realistic
derivative replaces the projectile cross-section and mass by `1.0 / 1.0`,
and its Arcade branch is an RK4 integrator while the live Arcade step is a
semi-implicit Euler update (see the counterexample). -/
theorem c4_predictor_integrators (simSpeed area mass : ℝ) (s : Vec3 × Vec3)
    (pos physVelocity : Vec3) :
    mainPredRealisticStep simSpeed s = rk4Step (realAccel 1 1) (0.02 * simSpeed) s.1 s.2 ∧
    mainRealisticStep area mass simSpeed pos physVelocity =
      ((1 / SCENE_SCALE) •
        (rk4Step (realAccel area mass) (0.02 * simSpeed) (SCENE_SCALE • pos) physVelocity).1,
       (rk4Step (realAccel area mass) (0.02 * simSpeed) (SCENE_SCALE • pos) physVelocity).2) ∧
    mainPredArcadeStep simSpeed s =
      rk4Step (fun p _ => arcadeAccel p) (0.02 * simSpeed) s.1 s.2 :=
  ⟨mainPredRealisticStep_eq_rk4 simSpeed s,
   mainRealisticStep_eq_rk4 area mass simSpeed pos physVelocity,
   mainPredArcadeStep_eq_rk4 simSpeed s⟩

/-- C7 (amended): the atmospheric density is
`max(0, rho0 * exp(-altitude / H))`, which equals
`rho0 * exp(-altitude / H)` for every altitude (the clamp never binds) and
is never negative; for negative altitudes the altitude is NOT clamped, so
the result strictly exceeds `rho0` instead of equalling it. -/
theorem c7_atmospheric_density (h : ℝ) :
    atmosphericDensity h = 1.225 * Real.exp (-h / 8000) ∧
    0 ≤ atmosphericDensity h ∧
    (0 ≤ h → atmosphericDensity h ≤ 1.225) ∧
    (h < 0 → 1.225 < atmosphericDensity h) := by
  have hpos : 0 < 1.225 * Real.exp (-h / 8000) := by positivity
  have heq : atmosphericDensity h = 1.225 * Real.exp (-h / 8000) :=
    max_eq_right hpos.le
  refine ⟨heq, heq ▸ hpos.le, ?_, ?_⟩
  · intro hh
    rw [heq]
    have : Real.exp (-h / 8000) ≤ 1 := by
      rw [Real.exp_le_one_iff]
      nlinarith
    nlinarith
  · intro hh
    rw [heq]
    have : 1 < Real.exp (-h / 8000) := by
      rw [Real.one_lt_exp_iff]
      nlinarith
    nlinarith

/-- C7 counterexample: at altitude `-8000` the density is
`rho0 * e`, not `rho0` — the code does not clamp the altitude at 0 before
evaluating the exponential. -/
theorem c7_counterexample : atmosphericDensity (-8000) ≠ 1.225 := by
  have h1 : Real.exp 1 ≥ 2 := by
    have := Real.add_one_le_exp 1
    linarith
  have : atmosphericDensity (-8000) = 1.225 * Real.exp 1 := by
    unfold atmosphericDensity
    rw [max_eq_right (by positivity)]
    norm_num
  rw [this]
  nlinarith

theorem c7_witness :
    atmosphericDensity 0 ≤ 1.225 ∧ 1.225 < atmosphericDensity (-8000) :=
  ⟨(c7_atmospheric_density 0).2.2.1 le_rfl,
   (c7_atmospheric_density (-8000)).2.2.2 (by norm_num)⟩

/-- C10 counterexample: a spawn request with diameter `-1` (non-positive)
still creates a projectile — the live set changes, contradicting the
claimed rejection at the spawn boundary. -/
theorem c10_counterexample :
    (shootMeteorW
        { meteors := [], marker := none, camera := ⟨0, 0, 15⟩, cursorPos := 0,
          speedSlider := 0.05, sizeSlider := -1, simSpeed := 1,
          realistic := false }).meteors ≠
      (({ meteors := [], marker := none, camera := ⟨0, 0, 15⟩, cursorPos := 0,
          speedSlider := 0.05, sizeSlider := -1, simSpeed := 1,
          realistic := false } : World)).meteors := by
  simp [shootMeteorW]

/-- C10 (amended): the spawn operation performs no validation at all: for
every diameter and launch speed (including non-positive diameters) exactly
one new projectile is appended to the live set, active, with mass and
cross-section derived from the diameter, and no error is reported (the
operation has no error channel). -/
theorem c10_spawn_never_rejects (w : World) :
    (shootMeteorW w).meteors = w.meteors ++
      [spawnMeteor w.camera w.cursorPos w.speedSlider w.sizeSlider w.marker] ∧
    (shootMeteorW w).meteors.length = w.meteors.length + 1 ∧
    (spawnMeteor w.camera w.cursorPos w.speedSlider w.sizeSlider w.marker).active = true ∧
    (spawnMeteor w.camera w.cursorPos w.speedSlider w.sizeSlider w.marker).mass =
      3000 * ((4 : ℝ) / 3 * Real.pi * (w.sizeSlider / 2) ^ 3) := by
  refine ⟨rfl, ?_, rfl, rfl⟩
  simp [shootMeteorW]

/-- C5 (amended): every impact event emitted by the per-frame update
carries a TNT equivalent exactly equal to
`kineticEnergyJoules / 4.184e9`, and its kinetic energy
`0.5 * (mass || 1) * speed^2` is non-negative whenever the projectile's
mass is non-negative.  The non-negativity is NOT unconditional: the spawn
path validates nothing, so a negative-diameter spawn carries a negative
mass and its impact event a negative kinetic energy. -/
theorem c5_impact_event_energy (realistic : Bool) (simSpeed dt : ℝ) (m : Meteor)
    (ev : ImpactEvent)
    (hev : (appTickMeteor realistic simSpeed dt m).2 = some ev) :
    ev.tntEquivalentKilotons = ev.kineticEnergyJoules / 4.184e9 ∧
    (0 ≤ m.mass → 0 ≤ ev.kineticEnergyJoules) := by
  simp only [appTickMeteor] at hev
  by_cases hactive : m.active = false
  · rw [if_pos hactive] at hev
    simp at hev
  · rw [if_neg hactive] at hev
    by_cases hr : len m.pos < earthRadius + 0.2
    · rw [if_pos hr] at hev
      dsimp only at hev
      rw [Option.some.injEq] at hev
      subst hev
      constructor
      · rfl
      · intro hm
        dsimp only
        have hmm : 0 ≤ (if m.mass = 0 then 1 else m.mass) := by
          split_ifs with h
          · norm_num
          · exact hm
        nlinarith [mul_self_nonneg (speedAtImpactSel
          (some (if realistic = true then
              ((appRealisticStep simSpeed m.pos m.physVel).1, m.vel,
                (appRealisticStep simSpeed m.pos m.physVel).2)
            else
              ((arcadeEulerStep simSpeed (m.pos, m.vel)).1,
                (arcadeEulerStep simSpeed (m.pos, m.vel)).2, m.physVel)).2.2)
          (if realistic = true then
              ((appRealisticStep simSpeed m.pos m.physVel).1, m.vel,
                (appRealisticStep simSpeed m.pos m.physVel).2)
            else
              ((arcadeEulerStep simSpeed (m.pos, m.vel)).1,
                (arcadeEulerStep simSpeed (m.pos, m.vel)).2, m.physVel)).2.1)]
    · rw [if_neg hr] at hev
      simp at hev

/-- A concrete meteor one scene unit from the body center, about to be
detected as impacting. -/
def c5meteor : Meteor :=
  { pos := ⟨1, 0, 0⟩, vel := 0, physVel := 0, mass := 196, area := 1,
    size := 0.5, ttl := 5, fading := false, opacity := 1, active := true }

/-- The impact event the per-frame update emits for `c5meteor`. -/
def c5event : ImpactEvent :=
  { point := ⟨0.98, 0, 0⟩, kineticEnergyJoules := 0, tntEquivalentKilotons := 0 }

theorem c5_hev : (appTickMeteor false 1 (1 / 50) c5meteor).2 = some c5event := by
  have haccel : arcadeAccel ⟨1, 0, 0⟩ = ⟨-(1 / 50), 0, 0⟩ := by
    rw [arcadeAccel_axis]
    norm_num [gravityStrength]
  have hlen : len (⟨1, 0, 0⟩ : Vec3) = 1 := len_axis_x zero_le_one
  simp only [appTickMeteor, c5meteor, arcadeEulerStep, haccel, speedAtImpactSel,
    len_zero_vec, mk_smul, mk_add, smul_zero, zero_add, hlen]
  norm_num [earthRadius, c5event, mk_add, mk_smul]
  refine ⟨?_, len_zero_vec⟩
  ext <;> simp <;> norm_num

theorem c5_witness :
    c5event.tntEquivalentKilotons = c5event.kineticEnergyJoules / 4.184e9 ∧
    0 ≤ c5event.kineticEnergyJoules := by
  have H := c5_impact_event_energy false 1 (1 / 50) c5meteor c5event c5_hev
  exact ⟨H.1, H.2 (by norm_num [c5meteor])⟩

/-- A meteor with the mass an unvalidated spawn of diameter `-1` receives
(`3000 * (4/3)π(-1/2)^3 = -500π`, cf. the spawn formula), one scene unit
from the body center with a 50 km/s stored SI velocity. -/
def c5negmeteor : Meteor :=
  { pos := ⟨1, 0, 0⟩, vel := 0, physVel := ⟨50000, 0, 0⟩,
    mass := 3000 * ((4 : ℝ) / 3 * Real.pi * ((-1 : ℝ) / 2) ^ 3),
    area := Real.pi * ((-1 : ℝ) / 2) ^ 2,
    size := -1, ttl := 5, fading := false, opacity := 1, active := true }

/-- C5 counterexample: the per-frame update run on a meteor carrying the
mass of an unvalidated diameter `-1` spawn emits an impact event whose
kinetic energy is strictly negative, so the claimed unconditional
`kineticEnergyJoules >= 0` is false. -/
theorem c5_counterexample :
    ∃ ev : ImpactEvent,
      (appTickMeteor false 1 (1 / 50) c5negmeteor).2 = some ev ∧
      ev.kineticEnergyJoules < 0 := by
  have haccel : arcadeAccel ⟨1, 0, 0⟩ = ⟨-(1 / 50), 0, 0⟩ := by
    rw [arcadeAccel_axis]
    norm_num [gravityStrength]
  have hlen : len (⟨1, 0, 0⟩ : Vec3) = 1 := len_axis_x zero_le_one
  have hlen5 : len (⟨50000, 0, 0⟩ : Vec3) = 50000 := len_axis_x (by norm_num)
  have hmass : (3000 * ((4 : ℝ) / 3 * Real.pi * ((-1 : ℝ) / 2) ^ 3)) =
      -(500 * Real.pi) := by ring
  have hmassne : (3000 * ((4 : ℝ) / 3 * Real.pi * ((-1 : ℝ) / 2) ^ 3)) ≠ 0 := by
    rw [hmass]
    have := Real.pi_pos
    intro h
    nlinarith
  refine ⟨{ point := (⟨1 - 1 / 50, 0, 0⟩ : Vec3),
            kineticEnergyJoules := (0.5 * (3000 * ((4 : ℝ) / 3 * Real.pi *
              ((-1 : ℝ) / 2) ^ 3)) * 50000 * 50000),
            tntEquivalentKilotons := (0.5 * (3000 * ((4 : ℝ) / 3 * Real.pi *
              ((-1 : ℝ) / 2) ^ 3)) * 50000 * 50000 / 4.184e9) }, ?_, ?_⟩
  · simp only [appTickMeteor, c5negmeteor, arcadeEulerStep, haccel,
      speedAtImpactSel, mk_smul, mk_add, smul_zero, zero_add, hlen, hlen5,
      if_neg hmassne]
    norm_num [earthRadius, mk_add, mk_smul]
    refine ⟨?_, by rw [hlen5], by rw [hlen5]⟩
    ext <;> simp <;> norm_num
  · dsimp only
    rw [hmass]
    have := Real.pi_pos
    nlinarith

/-- C2: every predictor implementation performs at most 2000 steps on its
own local state, and returns an impact point exactly when some executed
step brings the predicted position within `earthRadius + 0.2` of the
center before any escape (position beyond the escape threshold) stopped
the scan; the returned point is that first penetrating position.  Escape
or exhaustion of the 2000-step budget yields no impact. -/
theorem c2_predictor_characterization :
    (∀ (simSpeed speed : ℝ) (camera cursor : Vec3) (q : Vec3),
      appUpdatePredictedImpact simSpeed speed camera cursor = some q ↔
      ∃ n, n < 2000 ∧
        len ((arcadeEulerStep (0.02 * simSpeed))^[n + 1]
          (camera, speed • normalize (cursor - camera))).1 < earthRadius + 0.2 ∧
        (∀ m, m < n →
          ¬ len ((arcadeEulerStep (0.02 * simSpeed))^[m + 1]
              (camera, speed • normalize (cursor - camera))).1 < earthRadius + 0.2 ∧
          ¬ len ((arcadeEulerStep (0.02 * simSpeed))^[m + 1]
              (camera, speed • normalize (cursor - camera))).1 > 1e4) ∧
        q = ((arcadeEulerStep (0.02 * simSpeed))^[n + 1]
          (camera, speed • normalize (cursor - camera))).1) ∧
    (∀ (simSpeed speed : ℝ) (camera cursor : Vec3) (q : Vec3),
      mainPredArcade simSpeed speed camera cursor = some q ↔
      ∃ n, n < 2000 ∧
        len ((mainPredArcadeStep simSpeed)^[n + 1]
          (camera, speed • normalize (cursor - camera))).1 < earthRadius + 0.2 ∧
        (∀ m, m < n →
          ¬ len ((mainPredArcadeStep simSpeed)^[m + 1]
              (camera, speed • normalize (cursor - camera))).1 < earthRadius + 0.2 ∧
          ¬ len ((mainPredArcadeStep simSpeed)^[m + 1]
              (camera, speed • normalize (cursor - camera))).1 > 1e4) ∧
        q = ((mainPredArcadeStep simSpeed)^[n + 1]
          (camera, speed • normalize (cursor - camera))).1) ∧
    (∀ (simSpeed speed : ℝ) (camera cursor : Vec3) (q : Vec3),
      mainPredRealistic simSpeed speed camera cursor = some q ↔
      ∃ n, n < 2000 ∧
        len ((mainPredRealisticStep simSpeed)^[n + 1]
          (SCENE_SCALE • camera, SCENE_SCALE • (speed • normalize (cursor - camera)))).1
            / SCENE_SCALE < earthRadius + 0.2 ∧
        (∀ m, m < n →
          ¬ len ((mainPredRealisticStep simSpeed)^[m + 1]
              (SCENE_SCALE • camera, SCENE_SCALE • (speed • normalize (cursor - camera)))).1
                / SCENE_SCALE < earthRadius + 0.2 ∧
          ¬ len ((mainPredRealisticStep simSpeed)^[m + 1]
              (SCENE_SCALE • camera, SCENE_SCALE • (speed • normalize (cursor - camera)))).1
                / SCENE_SCALE > 1e6) ∧
        q = (1 / SCENE_SCALE) • ((mainPredRealisticStep simSpeed)^[n + 1]
          (SCENE_SCALE • camera, SCENE_SCALE • (speed • normalize (cursor - camera)))).1) := by
  refine ⟨?_, ?_, ?_⟩ <;> intro simSpeed speed camera cursor q
  · unfold appUpdatePredictedImpact
    rw [Option.map_eq_some']
    constructor
    · rintro ⟨a, ha, rfl⟩
      obtain ⟨n, hn, hhit, hmin, rfl⟩ :=
        (predictLoop_eq_some_iff _ _ _ 2000 _ a).mp ha
      exact ⟨n, hn, hhit, hmin, rfl⟩
    · rintro ⟨n, hn, hhit, hmin, hq⟩
      exact ⟨_, (predictLoop_eq_some_iff _ _ _ 2000 _ _).mpr
        ⟨n, hn, hhit, hmin, rfl⟩, hq.symm⟩
  · unfold mainPredArcade
    rw [Option.map_eq_some']
    constructor
    · rintro ⟨a, ha, rfl⟩
      obtain ⟨n, hn, hhit, hmin, rfl⟩ :=
        (predictLoop_eq_some_iff _ _ _ 2000 _ a).mp ha
      exact ⟨n, hn, hhit, hmin, rfl⟩
    · rintro ⟨n, hn, hhit, hmin, hq⟩
      exact ⟨_, (predictLoop_eq_some_iff _ _ _ 2000 _ _).mpr
        ⟨n, hn, hhit, hmin, rfl⟩, hq.symm⟩
  · unfold mainPredRealistic
    rw [Option.map_eq_some']
    constructor
    · rintro ⟨a, ha, rfl⟩
      obtain ⟨n, hn, hhit, hmin, rfl⟩ :=
        (predictLoop_eq_some_iff _ _ _ 2000 _ a).mp ha
      exact ⟨n, hn, hhit, hmin, rfl⟩
    · rintro ⟨n, hn, hhit, hmin, hq⟩
      exact ⟨_, (predictLoop_eq_some_iff _ _ _ 2000 _ _).mpr
        ⟨n, hn, hhit, hmin, rfl⟩, hq.symm⟩

/-- The normalization of a vector on the positive z-axis. -/
theorem normalize_axis_z {a : ℝ} (h : 0 < a) :
    Vec3.normalize ⟨0, 0, a⟩ = ⟨0, 0, 1⟩ := by
  have h1 : len (⟨0, 0, 1⟩ : Vec3) = 1 := by rw [len_axis_z]; norm_num
  have h2 : (⟨0, 0, a⟩ : Vec3) = a • ⟨0, 0, 1⟩ := by ext <;> simp
  rw [h2, normalize_smul_pos h h1]

/-- An Arcade-model frame never writes the SI velocity. -/
theorem appTickM_arcade_physVel (ss dt : ℝ) (m : Meteor) :
    (appTickM false ss dt m).physVel = m.physVel := by
  simp only [appTickM, appTickMeteor, Bool.false_eq_true, if_false]
  split_ifs <;> rfl

theorem appTickM_arcade_physVel_iter (ss dt : ℝ) (m : Meteor) (n : ℕ) :
    ((appTickM false ss dt)^[n] m).physVel = m.physVel := by
  induction n with
  | zero => rfl
  | succ k ih => rw [Function.iterate_succ_apply', appTickM_arcade_physVel, ih]

/-- C6 (amended): the impact speed is selected by the presence of a
`physVelocity`, not by the active model: a spawned projectile always
carries one, so after any number of Arcade-model frames the impact-energy
speed is the magnitude of the (never updated) SI launch velocity
`|speed| * SCENE_SCALE` — not the current display velocity rescaled to SI. -/
theorem c6_impact_speed_selection (ss dt speed size : ℝ) (camera cursor : Vec3)
    (n : ℕ) (h : cursor - camera ≠ 0) :
    speedAtImpactSel
        (some (((appTickM false ss dt)^[n]
          (spawnMeteor camera cursor speed size none)).physVel))
        (((appTickM false ss dt)^[n] (spawnMeteor camera cursor speed size none)).vel)
      = |speed| * SCENE_SCALE := by
  simp only [speedAtImpactSel]
  rw [appTickM_arcade_physVel_iter]
  show len ((speed * SCENE_SCALE) • normalize (cursor - camera)) = |speed| * SCENE_SCALE
  rw [len_smul, len_normalize h, mul_one, abs_mul]
  norm_num [SCENE_SCALE]

theorem c6_witness :
    speedAtImpactSel
        (some (((appTickM false 1 (1 / 50))^[3]
          (spawnMeteor ⟨0, 0, 15⟩ ⟨0, 0, 10⟩ 0.05 0.5 none)).physVel))
        (((appTickM false 1 (1 / 50))^[3]
          (spawnMeteor ⟨0, 0, 15⟩ ⟨0, 0, 10⟩ 0.05 0.5 none)).vel)
      = |(0.05 : ℝ)| * SCENE_SCALE := by
  refine c6_impact_speed_selection 1 (1 / 50) 0.05 0.5 ⟨0, 0, 15⟩ ⟨0, 0, 10⟩ 3 ?_
  intro hc
  have hz := congrArg Vec3.z hc
  simp at hz
  norm_num at hz

/-- The meteor state one Arcade frame after a concrete spawn. -/
def c6meteor : Meteor :=
  appTickM false 1 (1 / 50) (spawnMeteor ⟨0, 0, 15⟩ ⟨0, 0, 10⟩ 0.05 0.5 none)

theorem c6_spawn_fields :
    spawnMeteor ⟨0, 0, 15⟩ ⟨0, 0, 10⟩ 0.05 0.5 none =
      { pos := ⟨0, 0, 15⟩, vel := ⟨0, 0, -(3 / 100)⟩, physVel := ⟨0, 0, -50000⟩,
        mass := 3000 * ((4 : ℝ) / 3 * Real.pi * (0.5 / 2) ^ 3),
        area := Real.pi * ((0.5 : ℝ) / 2) ^ 2, size := 0.5, ttl := 800,
        fading := false, opacity := 1, active := true } := by
  have hdiff : (⟨0, 0, 10⟩ - ⟨0, 0, 15⟩ : Vec3) = ⟨0, 0, -5⟩ := by
    ext <;> simp <;> norm_num
  have hdir : normalize (⟨0, 0, 10⟩ - ⟨0, 0, 15⟩ : Vec3) = ⟨0, 0, -1⟩ := by
    rw [hdiff]
    have h1 : len (⟨0, 0, -1⟩ : Vec3) = 1 := by rw [len_axis_z]; norm_num
    have : (⟨0, 0, -5⟩ : Vec3) = (5 : ℝ) • ⟨0, 0, -1⟩ := by ext <;> simp <;> norm_num
    rw [this, normalize_smul_pos (by norm_num) h1]
  simp only [spawnMeteor, hdir, Meteor.mk.injEq, and_true, true_and]
  constructor
  · ext <;> simp <;> norm_num
  · ext <;> simp [SCENE_SCALE] <;> norm_num

theorem c6_meteor_fields :
    c6meteor.physVel = ⟨0, 0, -50000⟩ ∧ c6meteor.vel = ⟨0, 0, -(677 / 22500)⟩ := by
  have haccel : arcadeAccel ⟨0, 0, 15⟩ = ⟨0, 0, -(1 / 11250)⟩ := by
    unfold arcadeAccel
    have h15 : len (⟨0, 0, 15⟩ : Vec3) = 15 := by rw [len_axis_z]; norm_num
    rw [h15, normalize_axis_z (by norm_num)]
    ext <;> simp [gravityStrength] <;> norm_num
  have hlen15 : len (⟨0, 0, 15⟩ : Vec3) = 15 := by rw [len_axis_z]; norm_num
  constructor
  · unfold c6meteor
    rw [appTickM_arcade_physVel, c6_spawn_fields]
  · unfold c6meteor
    rw [c6_spawn_fields]
    simp only [appTickM, appTickMeteor, arcadeEulerStep, haccel, hlen15]
    rw [if_neg (by norm_num), if_neg (by norm_num [earthRadius])]
    ext <;> simp <;> norm_num

/-- C6 counterexample: one Arcade frame after a spawn, the impact-energy
speed the code would use (`|physVelocity|`) differs from the display
velocity rescaled to SI, which the claim says the Arcade model should
use. -/
theorem c6_counterexample :
    speedAtImpactSel (some c6meteor.physVel) c6meteor.vel ≠
      len c6meteor.vel * SCENE_SCALE := by
  obtain ⟨h1, h2⟩ := c6_meteor_fields
  simp only [speedAtImpactSel, h1, h2]
  rw [len_axis_z, len_axis_z]
  rw [show |(-50000 : ℝ)| = 50000 by norm_num,
      show |(-(677 / 22500) : ℝ)| = 677 / 22500 by norm_num]
  norm_num [SCENE_SCALE]

/-! ## Arcade infall (C9) -/

theorem smul_add_smul_vec (a b : ℝ) (u : Vec3) : a • u + b • u = (a + b) • u := by
  ext <;> simp <;> ring

theorem smul_len_normalize {p : Vec3} (hp : p ≠ 0) : len p • normalize p = p := by
  have hl : len p ≠ 0 := fun h0 => hp ((len_eq_zero_iff p).mp h0)
  unfold Vec3.normalize
  rw [if_neg hl, Vec3.smul_smul]
  have : len p * (1 / len p) = 1 := by field_simp
  rw [this, Vec3.one_smul]

theorem len_smul_normalize {p : Vec3} (hp : p ≠ 0) {x : ℝ} (hx : 0 ≤ x) :
    len (x • normalize p) = x := by
  rw [len_smul, len_normalize hp, mul_one, abs_of_nonneg hx]

theorem arcadeAccel_on_ray {p : Vec3} (hp : p ≠ 0) {x : ℝ} (hx : 0 < x) :
    arcadeAccel (x • normalize p) = (-gravityStrength / (x * x)) • normalize p := by
  unfold arcadeAccel
  rw [len_smul_normalize hp hx.le, normalize_smul_pos hx (len_normalize hp)]

/-- One live Arcade step on a state falling straight along the ray through
`p`, in scalar form: the inward speed grows by `g/x^2` and the radius
shrinks by the new speed. -/
theorem arcadeEulerStep_on_ray {p : Vec3} (hp : p ≠ 0) {x : ℝ} (w : ℝ) (hx : 0 < x) :
    arcadeEulerStep 1 (x • normalize p, (-w) • normalize p) =
      ((x - (w + gravityStrength / (x * x))) • normalize p,
       (-(w + gravityStrength / (x * x))) • normalize p) := by
  unfold arcadeEulerStep
  dsimp only
  rw [arcadeAccel_on_ray hp hx]
  simp only [Vec3.one_smul]
  rw [smul_add_smul_vec]
  have h1 : -w + -gravityStrength / (x * x) = -(w + gravityStrength / (x * x)) := by ring
  rw [h1, smul_add_smul_vec]
  have h2 : x + -(w + gravityStrength / (x * x)) = x - (w + gravityStrength / (x * x)) := by
    ring
  rw [h2]

/-- The discrete energy invariant of Arcade infall from rest: as long as
every radius seen so far is at least `earthRadius + 0.2`, the state after
`n` live Arcade steps (simulation speed 1) lies on the initial ray at
radius `x` with inward speed `w`, `w^2 <= 2g(1/x - 1/x0)`, and `w` is
uniformly small. -/
theorem c9_main (p₀ : Vec3) : ∀ n : ℕ,
    (∀ k, k ≤ n → earthRadius + 0.2 ≤ len ((arcadeEulerStep 1)^[k] (p₀, 0)).1) →
    ∃ x w : ℝ,
      (arcadeEulerStep 1)^[n] (p₀, 0) = (x • normalize p₀, (-w) • normalize p₀) ∧
      earthRadius + 0.2 ≤ x ∧ 0 ≤ w ∧ w ≤ 0.079 ∧
      w ^ 2 ≤ 2 * gravityStrength * (1 / x - 1 / len p₀) := by
  intro n
  induction n with
  | zero =>
    intro hfar
    have hp0len : earthRadius + 0.2 ≤ len p₀ := by simpa using hfar 0 le_rfl
    have hp0 : p₀ ≠ 0 := by
      intro h
      rw [h, len_zero_vec] at hp0len
      norm_num [earthRadius] at hp0len
    refine ⟨len p₀, 0, ?_, hp0len, le_rfl, by norm_num, by simp⟩
    rw [Function.iterate_zero_apply, smul_len_normalize hp0]
    have : (-(0 : ℝ)) • normalize p₀ = (0 : Vec3) := by ext <;> simp
    rw [this]
  | succ m ih =>
    intro hfar
    have hfarm : ∀ k, k ≤ m → earthRadius + 0.2 ≤ len ((arcadeEulerStep 1)^[k] (p₀, 0)).1 :=
      fun k hk => hfar k (le_trans hk (Nat.le_succ m))
    obtain ⟨x, w, hstate, hxT, hw0, hw079, hinv⟩ := ih hfarm
    have hp0len : earthRadius + 0.2 ≤ len p₀ := by simpa using hfar 0 (Nat.zero_le _)
    have hp0 : p₀ ≠ 0 := by
      intro h
      rw [h, len_zero_vec] at hp0len
      norm_num [earthRadius] at hp0len
    have h657 : earthRadius + 0.2 = 6.571 := by norm_num [earthRadius]
    have hT : (6.571 : ℝ) ≤ x := by linarith
    have hxpos : 0 < x := by linarith
    have hxx43 : 43 ≤ x * x := by nlinarith [mul_le_mul hT hT (by norm_num : (0:ℝ) ≤ 6.571) (by linarith : (0:ℝ) ≤ x)]
    have haval : gravityStrength / (x * x) ≤ 0.0005 := by
      rw [gravityStrength, div_le_iff₀ (by nlinarith : (0:ℝ) < x * x)]
      nlinarith
    have hapos : 0 < gravityStrength / (x * x) := by
      rw [gravityStrength]
      positivity
    set a := gravityStrength / (x * x) with ha_def
    clear_value a
    have hstep : (arcadeEulerStep 1)^[m + 1] (p₀, 0) =
        ((x - (w + a)) • normalize p₀, (-(w + a)) • normalize p₀) := by
      rw [Function.iterate_succ_apply', hstate, arcadeEulerStep_on_ray hp0 w hxpos, ← ha_def]
    have hxw_pos : 0 < x - (w + a) := by linarith
    have hxT' : earthRadius + 0.2 ≤ x - (w + a) := by
      have hh := hfar (m + 1) le_rfl
      rw [hstep] at hh
      simpa [len_smul_normalize hp0 hxw_pos.le] using hh
    have hLpos : 0 < len p₀ := by linarith
    refine ⟨x - (w + a), w + a, hstep, hxT', by linarith, ?_, ?_⟩
    · -- the new speed is still uniformly small
      have h1x : 1 / x ≤ 1 / 6.571 := one_div_le_one_div_of_le (by norm_num) hT
      have hwsq : w ^ 2 ≤ 0.04 / 6.571 := by
        have hL : 0 < 1 / len p₀ := by positivity
        calc w ^ 2 ≤ 2 * gravityStrength * (1 / x - 1 / len p₀) := hinv
          _ ≤ 2 * gravityStrength * (1 / x) := by
              rw [gravityStrength]
              nlinarith
          _ ≤ 0.04 / 6.571 := by
              rw [gravityStrength]
              nlinarith
      nlinarith [sq_nonneg (w - 0.0785), hwsq, haval, hapos, hw0]
    · -- the energy invariant extends to the new state
      have hx0 : x ≠ 0 := ne_of_gt hxpos
      have hxw0 : x - (w + a) ≠ 0 := ne_of_gt hxw_pos
      have hfrac : 1 / (x - (w + a)) - 1 / x = (w + a) / (x * (x - (w + a))) := by
        rw [div_sub_div 1 1 hxw0 hx0]
        congr 1
        · ring
        · ring
      have hwa0 : 0 ≤ w + a := by linarith
      have hmono : 2 * gravityStrength * (w + a) / (x * x) ≤
          2 * gravityStrength * (w + a) / (x * (x - (w + a))) := by
        have hnum : 0 ≤ 2 * gravityStrength * (w + a) := by
          rw [gravityStrength]; nlinarith
        have hden1 : 0 < x * (x - (w + a)) := by positivity
        have hden2 : x * (x - (w + a)) ≤ x * x := by nlinarith
        exact div_le_div_of_nonneg_left hnum hden1 hden2
      have key : 2 * a * (w + a) ≤
          2 * gravityStrength * (1 / (x - (w + a)) - 1 / x) := by
        rw [hfrac]
        have lhs_eq : 2 * a * (w + a) =
            2 * gravityStrength * (w + a) / (x * x) := by
          rw [ha_def]; ring
        have rhs_eq : 2 * gravityStrength * ((w + a) / (x * (x - (w + a)))) =
            2 * gravityStrength * (w + a) / (x * (x - (w + a))) := by ring
        rw [lhs_eq, rhs_eq]
        exact hmono
      calc (w + a) ^ 2 = w ^ 2 + 2 * a * w + a ^ 2 := by ring
        _ ≤ w ^ 2 + 2 * a * (w + a) := by nlinarith
        _ ≤ 2 * gravityStrength * (1 / x - 1 / len p₀) +
            2 * gravityStrength * (1 / (x - (w + a)) - 1 / x) := by linarith
        _ = 2 * gravityStrength * (1 / (x - (w + a)) - 1 / len p₀) := by ring

/-- C9 (amended): under the Arcade model at simulation speed 1, a
projectile starting from rest falls monotonically: for every tick reached
with all radii seen so far at least the impact-detection threshold
`earthRadius + 0.2` (so impact has not yet been detected), the distance to
the body center strictly decreases at the next tick. -/
theorem c9_arcade_infall_monotone (p₀ : Vec3) (n : ℕ)
    (hfar : ∀ k, k ≤ n → earthRadius + 0.2 ≤ len ((arcadeEulerStep 1)^[k] (p₀, 0)).1) :
    len ((arcadeEulerStep 1)^[n + 1] (p₀, 0)).1 <
      len ((arcadeEulerStep 1)^[n] (p₀, 0)).1 := by
  obtain ⟨x, w, hstate, hxT, hw0, hw079, hinv⟩ := c9_main p₀ n hfar
  have hp0len : earthRadius + 0.2 ≤ len p₀ := by simpa using hfar 0 (Nat.zero_le _)
  have hp0 : p₀ ≠ 0 := by
    intro h
    rw [h, len_zero_vec] at hp0len
    norm_num [earthRadius] at hp0len
  have h657 : earthRadius + 0.2 = 6.571 := by norm_num [earthRadius]
  have hT : (6.571 : ℝ) ≤ x := by linarith
  have hxpos : 0 < x := by linarith
  have hxx43 : 43 ≤ x * x := by
    nlinarith [mul_le_mul hT hT (by norm_num : (0:ℝ) ≤ 6.571) (by linarith : (0:ℝ) ≤ x)]
  have haval : gravityStrength / (x * x) ≤ 0.0005 := by
    rw [gravityStrength, div_le_iff₀ (by nlinarith : (0:ℝ) < x * x)]
    nlinarith
  have hapos : 0 < gravityStrength / (x * x) := by
    rw [gravityStrength]
    positivity
  have hxw_pos : 0 < x - (w + gravityStrength / (x * x)) := by linarith
  rw [Function.iterate_succ_apply', hstate, arcadeEulerStep_on_ray hp0 w hxpos]
  dsimp only
  rw [len_smul_normalize hp0 hxw_pos.le, len_smul_normalize hp0 (by linarith : (0:ℝ) ≤ x)]
  linarith

theorem c9_witness :
    len ((arcadeEulerStep 1)^[0 + 1] ((⟨15, 0, 0⟩ : Vec3), 0)).1 <
      len ((arcadeEulerStep 1)^[0] ((⟨15, 0, 0⟩ : Vec3), 0)).1 := by
  refine c9_arcade_infall_monotone ⟨15, 0, 0⟩ 0 ?_
  intro k hk
  interval_cases k
  simp only [Function.iterate_zero_apply]
  rw [show len (((⟨15, 0, 0⟩ : Vec3), (0 : Vec3))).1 = 15 from len_axis_x (by norm_num)]
  norm_num [earthRadius]

/-- C9 counterexample: at simulation speed 300, a projectile dropped from
rest at radius 7 (outside the detection threshold, so no impact is
detected) overshoots the body center in a single tick and ends FARTHER
from the center: the distance is not strictly decreasing. -/
theorem c9_counterexample :
    earthRadius + 0.2 ≤ len ((arcadeEulerStep 300)^[0] ((⟨7, 0, 0⟩ : Vec3), 0)).1 ∧
    ¬ len ((arcadeEulerStep 300)^[0 + 1] ((⟨7, 0, 0⟩ : Vec3), 0)).1 <
        len ((arcadeEulerStep 300)^[0] ((⟨7, 0, 0⟩ : Vec3), 0)).1 := by
  have haccel : arcadeAccel ⟨7, 0, 0⟩ = ⟨-(1 / 2450), 0, 0⟩ := by
    rw [arcadeAccel_axis]
    have : |(7:ℝ)| = 7 := by norm_num
    rw [this]
    norm_num [gravityStrength]
  have hlen7 : len ((((⟨7, 0, 0⟩ : Vec3), (0 : Vec3))).1) = 7 :=
    len_axis_x (by norm_num)
  constructor
  · simp only [Function.iterate_zero_apply]
    rw [hlen7]
    norm_num [earthRadius]
  · simp only [Function.iterate_zero_apply, zero_add, Function.iterate_one]
    unfold arcadeEulerStep
    dsimp only
    rw [haccel]
    have hv : (0 : Vec3) + (300 : ℝ) • (⟨-(1 / 2450), 0, 0⟩ : Vec3) = ⟨-(6 / 49), 0, 0⟩ := by
      ext <;> simp <;> norm_num
    rw [hv]
    have hp : (⟨7, 0, 0⟩ : Vec3) + (300 : ℝ) • (⟨-(6 / 49), 0, 0⟩ : Vec3) =
        ⟨-(1457 / 49), 0, 0⟩ := by
      ext <;> simp <;> norm_num
    rw [hp, len_axis_abs, len_axis_x (by norm_num : (0:ℝ) ≤ 7)]
    rw [show |(-(1457 / 49) : ℝ)| = 1457 / 49 by norm_num]
    norm_num

/-! ## Predictor vs live integrator mismatch (C4) -/

theorem arcadeAccel_axis_pos {a : ℝ} (h : 0 < a) :
    arcadeAccel ⟨a, 0, 0⟩ = ⟨-gravityStrength / (a * a), 0, 0⟩ := by
  rw [arcadeAccel_axis, abs_of_pos h, if_neg (ne_of_gt h)]
  have h1 : 1 / a * a = 1 := by field_simp
  rw [h1, mul_one]

/-- C4 counterexample: at the state ((15,0,0), 0) with simulation speed 1,
the Arcade branch of the predictor (one RK4 step with dt = 0.02) moves the
position differently from the live Arcade step (one semi-implicit Euler
update with multiplier 1): the predictor does not use the same integrator
as the live simulation. -/
theorem c4_counterexample :
    (mainPredArcadeStep 1 ((⟨15, 0, 0⟩ : Vec3), (0 : Vec3))).1.x ≠
      (arcadeEulerStep 1 ((⟨15, 0, 0⟩ : Vec3), (0 : Vec3))).1.x := by
  have haccel15 : arcadeAccel ⟨15, 0, 0⟩ = ⟨-(1 / 11250), 0, 0⟩ := by
    rw [arcadeAccel_axis_pos (by norm_num : (0:ℝ) < 15)]
    norm_num [gravityStrength]
  have hrhs : (arcadeEulerStep 1 ((⟨15, 0, 0⟩ : Vec3), (0 : Vec3))).1.x = 15 - 1 / 11250 := by
    unfold arcadeEulerStep
    dsimp only
    rw [haccel15]
    simp
    norm_num
  have h1 : (fun (p : Vec3) (_ : Vec3) => arcadeAccel p) ⟨15, 0, 0⟩ ⟨0, 0, 0⟩ =
      ⟨-(1 / 11250), 0, 0⟩ := haccel15
  have h2 : (fun (p : Vec3) (_ : Vec3) => arcadeAccel p)
      ⟨15 + 0.5 * (0.02 * 1 * 0), 0, 0⟩
      ⟨0 + 0.5 * (0.02 * 1 * -(1 / 11250)), 0, 0⟩ = ⟨-(1 / 11250), 0, 0⟩ := by
    show arcadeAccel _ = _
    have e : (⟨15 + 0.5 * (0.02 * 1 * 0), 0, 0⟩ : Vec3) = ⟨15, 0, 0⟩ := by norm_num
    rw [e]
    exact haccel15
  have h3 : (fun (p : Vec3) (_ : Vec3) => arcadeAccel p)
      ⟨15 + 0.5 * (0.02 * 1 * (0 + 0.5 * (0.02 * 1 * -(1 / 11250)))), 0, 0⟩
      ⟨0 + 0.5 * (0.02 * 1 * -(1 / 11250)), 0, 0⟩ =
      ⟨-gravityStrength / (1687499999 / 112500000 * (1687499999 / 112500000)), 0, 0⟩ := by
    show arcadeAccel _ = _
    have e : (⟨15 + 0.5 * (0.02 * 1 * (0 + 0.5 * (0.02 * 1 * -(1 / 11250)))), 0, 0⟩ : Vec3)
        = ⟨1687499999 / 112500000, 0, 0⟩ := by norm_num
    rw [e, arcadeAccel_axis_pos (by norm_num : (0:ℝ) < 1687499999 / 112500000)]
  have h4 : (fun (p : Vec3) (_ : Vec3) => arcadeAccel p)
      ⟨15 + 0.02 * 1 * (0 + 0.5 * (0.02 * 1 * -(1 / 11250))), 0, 0⟩
      ⟨0 + 0.02 * 1 *
        (-gravityStrength / (1687499999 / 112500000 * (1687499999 / 112500000))), 0, 0⟩ =
      ⟨-gravityStrength / (843749999 / 56250000 * (843749999 / 56250000)), 0, 0⟩ := by
    show arcadeAccel _ = _
    have e : (⟨15 + 0.02 * 1 * (0 + 0.5 * (0.02 * 1 * -(1 / 11250))), 0, 0⟩ : Vec3)
        = ⟨843749999 / 56250000, 0, 0⟩ := by norm_num
    rw [e, arcadeAccel_axis_pos (by norm_num : (0:ℝ) < 843749999 / 56250000)]
  rw [mainPredArcadeStep_eq_rk4]
  show (rk4Step (fun (p : Vec3) (_ : Vec3) => arcadeAccel p) (0.02 * 1)
    ⟨15, 0, 0⟩ ⟨0, 0, 0⟩).1.x ≠ _
  rw [rk4Step_axis (fun (p : Vec3) (_ : Vec3) => arcadeAccel p) (0.02 * 1) 15 0
    (-(1 / 11250)) (-(1 / 11250))
    (-gravityStrength / (1687499999 / 112500000 * (1687499999 / 112500000)))
    (-gravityStrength / (843749999 / 56250000 * (843749999 / 56250000)))
    h1 h2 h3 h4]
  dsimp only
  rw [hrhs]
  norm_num [gravityStrength]

/-! ## The App realistic step is not an RK4 step (C1) -/

theorem atmosphericDensity_nonneg (h : ℝ) : 0 ≤ atmosphericDensity h :=
  le_max_left 0 _

theorem atmosphericDensity_le_rho0 {h : ℝ} (hh : 0 ≤ h) : atmosphericDensity h ≤ 1.225 := by
  unfold atmosphericDensity
  apply max_le
  · norm_num
  · have hexp : Real.exp (-h / 8000) ≤ 1 := by
      rw [Real.exp_le_one_iff]
      apply div_nonpos_of_nonpos_of_nonneg <;> linarith
    nlinarith

/-- Near radius 12742000 m with a small inward velocity, the realistic
derivative (area = mass = 1) is an acceleration between -2.47 and -2.44:
the inverse-square gravity term is about -2.455 and the drag correction is
below 0.01 in magnitude. -/
theorem realAccel_axis_bounds {a b : ℝ} (ha : 12741999 ≤ a) (ha2 : a ≤ 12742000)
    (hb : -0.025 ≤ b) (hb2 : b ≤ 0) :
    ∃ y : ℝ, realAccel 1 1 ⟨a, 0, 0⟩ ⟨b, 0, 0⟩ = ⟨y, 0, 0⟩ ∧ -2.47 ≤ y ∧ y ≤ -2.44 := by
  refine ⟨_, realAccel_axis 1 1 a b, ?_, ?_⟩ <;>
  · have hapos : (0:ℝ) < a := by linarith
    have habseq : |a| = a := abs_of_pos hapos
    rw [habseq]
    have hbabs : |b| ≤ 0.025 := abs_le.mpr ⟨by linarith, by linarith⟩
    have hρ0 : 0 ≤ atmosphericDensity (a - earthRadiusMeters) :=
      atmosphericDensity_nonneg _
    have hρ1 : atmosphericDensity (a - earthRadiusMeters) ≤ 1.225 :=
      atmosphericDensity_le_rho0 (by rw [earthRadiusMeters]; linarith)
    have hmax0 : (0:ℝ) ≤ max 1e-6 |b| := le_trans (by norm_num) (le_max_left _ _)
    have hmax1 : max 1e-6 |b| ≤ 0.025 := max_le (by norm_num) hbabs
    have hgeq : -(Gconst * earthMass) / (a * a * a) * a =
        -((Gconst * earthMass) / (a * a)) := by
      field_simp
      ring
    have hgm : Gconst * earthMass = 3.98589196e14 := by norm_num [Gconst, earthMass]
    have haa_lb : (12741999:ℝ) * 12741999 ≤ a * a :=
      mul_le_mul ha ha (by linarith) (by linarith)
    have haa_ub : a * a ≤ (12742000:ℝ) * 12742000 :=
      mul_le_mul ha2 ha2 (by linarith) (by norm_num)
    have haa_pos : (0:ℝ) < a * a := mul_pos hapos hapos
    have hg_ub : (Gconst * earthMass) / (a * a) ≤ 2.46 := by
      rw [hgm, div_le_iff₀ haa_pos]
      nlinarith [haa_lb]
    have hg_lb : 2.45 ≤ (Gconst * earthMass) / (a * a) := by
      rw [hgm, le_div_iff₀ haa_pos]
      nlinarith [haa_ub]
    have hDeq : -0.5 * atmosphericDensity (a - earthRadiusMeters) * max 1e-6 |b| *
        1.0 * 1 / 1 * b =
        -(0.5 * (atmosphericDensity (a - earthRadiusMeters) * (max 1e-6 |b| * b))) := by
      ring
    have hm2 : atmosphericDensity (a - earthRadiusMeters) * (max 1e-6 |b| * b) ≤ 0 := by
      apply mul_nonpos_of_nonneg_of_nonpos hρ0
      exact mul_nonpos_of_nonneg_of_nonpos hmax0 hb2
    have hm3 : -(1.225 * (0.025 * 0.025)) ≤
        atmosphericDensity (a - earthRadiusMeters) * (max 1e-6 |b| * b) := by
      nlinarith [mul_nonneg hρ0 hmax0, mul_le_mul hρ1 hmax1 hmax0 (by norm_num : (0:ℝ) ≤ 1.225)]
    rw [hgeq, hDeq]
    linarith

/-- C1 counterexample: at scene position (12.742, 0, 0) (12742000 m, twice
the body radius) with zero velocity and cross-section = mass = 1, the
Realistic step of `App.animate` in `src/app.js` moves the position
strictly less far than one classical RK4 step of the claimed gravity+drag
system: the App implementation is not the claimed RK4 integrator. -/
theorem c1_counterexample :
    (appRealisticStep 1 ⟨12.742, 0, 0⟩ 0).1.x ≠
      ((1 / SCENE_SCALE) • (rk4Step (realAccel 1 1) (0.02 * 1)
        (SCENE_SCALE • ⟨12.742, 0, 0⟩) 0).1).x := by
  have hA : SCENE_SCALE • (⟨12.742, 0, 0⟩ : Vec3) = ⟨12742000, 0, 0⟩ := by
    ext <;> simp [SCENE_SCALE] <;> norm_num
  -- the App (semi-implicit Euler) side, evaluated
  have happ : (appRealisticStep 1 ⟨12.742, 0, 0⟩ 0).1.x =
      (1 / SCENE_SCALE) * (12742000 + 0.02 * 1 * (0 + 0.02 * 1 *
        (-(Gconst * earthMass) / (12742000 * 12742000 * 12742000) * 12742000))) := by
    unfold appRealisticStep
    dsimp only
    rw [hA, len_axis_x (by norm_num : (0:ℝ) ≤ 12742000)]
    simp only [smul_x, add_x, zero_x]
  have hgE : -2.46 ≤ -(Gconst * earthMass) / (12742000 * 12742000 * 12742000) * 12742000 ∧
      -(Gconst * earthMass) / (12742000 * 12742000 * 12742000) * 12742000 ≤ -2.45 := by
    constructor <;> norm_num [Gconst, earthMass]
  -- the four RK4 stage accelerations, with bounds
  obtain ⟨s1, h1, hs1l, hs1u⟩ :=
    realAccel_axis_bounds (a := 12742000) (b := 0) (by norm_num) (by norm_num)
      (by norm_num) (by norm_num)
  obtain ⟨s2, h2, hs2l, hs2u⟩ :=
    realAccel_axis_bounds (a := 12742000 + 0.5 * (0.02 * 1 * 0))
      (b := 0 + 0.5 * (0.02 * 1 * s1))
      (by norm_num) (by norm_num) (by nlinarith) (by nlinarith)
  obtain ⟨s3, h3, hs3l, hs3u⟩ :=
    realAccel_axis_bounds (a := 12742000 + 0.5 * (0.02 * 1 * (0 + 0.5 * (0.02 * 1 * s1))))
      (b := 0 + 0.5 * (0.02 * 1 * s2))
      (by nlinarith) (by nlinarith) (by nlinarith) (by nlinarith)
  have h4 := realAccel_axis 1 1 (12742000 + 0.02 * 1 * (0 + 0.5 * (0.02 * 1 * s2)))
    (0 + 0.02 * 1 * s3)
  rw [happ, hA, show (0 : Vec3) = (⟨0, 0, 0⟩ : Vec3) from rfl]
  rw [rk4Step_axis (realAccel 1 1) (0.02 * 1) 12742000 0 s1 s2 s3 _ h1 h2 h3 h4]
  dsimp only
  rw [smul_x]
  apply ne_of_lt
  rw [mul_lt_mul_left (by norm_num [SCENE_SCALE] : (0:ℝ) < 1 / SCENE_SCALE)]
  nlinarith [hgE.1, hgE.2, hs1l, hs1u, hs2l, hs2u, hs3l, hs3u]

/-! ## TTL lifecycle (C8) -/

/-- A frame on an inactive meteor does nothing and emits nothing. -/
theorem appTickMeteor_inactive (realistic : Bool) (ss dt : ℝ) (m : Meteor)
    (h : m.active = false) :
    appTickMeteor realistic ss dt m = (m, none) := by
  unfold appTickMeteor
  rw [if_pos h]

/-- An Arcade frame on an active meteor whose (pre-move) radius is outside
the detection threshold: the meteor moves by one Euler step, the TTL drops
by `dt`, fading starts at `ttl <= 0`, a fading meteor loses `0.5 * dt`
opacity and is deactivated at opacity 0, and no impact event is emitted. -/
theorem appTickMeteor_far (ss dt : ℝ) (m : Meteor) (hact : m.active = true)
    (hfar : ¬ len m.pos < earthRadius + 0.2) :
    appTickMeteor false ss dt m =
      ({ m with
          pos := (arcadeEulerStep ss (m.pos, m.vel)).1,
          vel := (arcadeEulerStep ss (m.pos, m.vel)).2,
          ttl := m.ttl - dt,
          fading := if m.ttl - dt ≤ 0 then true else m.fading,
          opacity := if (if m.ttl - dt ≤ 0 then true else m.fading) = true
            then max 0 ((if m.opacity = 0 then 1 else m.opacity) - 0.5 * dt)
            else m.opacity,
          active := if (if m.ttl - dt ≤ 0 then true else m.fading) = true
            then (if max 0 ((if m.opacity = 0 then 1 else m.opacity) - 0.5 * dt) ≤ 0
              then false else m.active)
            else m.active }, none) := by
  unfold appTickMeteor
  rw [if_neg (by rw [hact]; simp)]
  simp only [Bool.false_eq_true, if_false]
  rw [if_neg hfar]
  simp only [apply_ite Prod.fst, apply_ite Prod.snd]

/-- The scenario's initial projectile: TTL 1.0 s, full opacity, flying. -/
def c8init (pos₀ vel₀ physVel₀ : Vec3) (mass₀ area₀ size₀ : ℝ) : Meteor :=
  { pos := pos₀, vel := vel₀, physVel := physVel₀, mass := mass₀, area := area₀,
    size := size₀, ttl := 1, fading := false, opacity := 1, active := true }

/-- The scenario's opacity schedule at `dt = 1/50`: full until the TTL
expires at tick 50, then down by `0.5 * dt = 1/100` per tick. -/
def c8opac (n : ℕ) : ℝ := if n ≤ 49 then 1 else 1 - ((n : ℝ) - 49) / 100

/-- Lifecycle characterization of the scenario meteor: with `dt = 1/50`
and every radius seen before tick `n` outside the detection threshold, the
state after `n` frames has `ttl = 1 - n/50`, starts fading exactly at
tick 50 (simulated time 1.0 s), follows the opacity schedule, and is
deactivated exactly at tick 149 (opacity 0). -/
theorem c8_lifecycle (pos₀ vel₀ physVel₀ : Vec3) (mass₀ area₀ size₀ : ℝ) :
    ∀ n, n ≤ 149 →
    (∀ k, k < n → earthRadius + 0.2 ≤
      len (((appTickM false 1 (1 / 50))^[k]
        (c8init pos₀ vel₀ physVel₀ mass₀ area₀ size₀)).pos)) →
    ((appTickM false 1 (1 / 50))^[n]
        (c8init pos₀ vel₀ physVel₀ mass₀ area₀ size₀)).ttl = 1 - (n : ℝ) / 50 ∧
    ((appTickM false 1 (1 / 50))^[n]
        (c8init pos₀ vel₀ physVel₀ mass₀ area₀ size₀)).fading = decide (50 ≤ n) ∧
    ((appTickM false 1 (1 / 50))^[n]
        (c8init pos₀ vel₀ physVel₀ mass₀ area₀ size₀)).opacity = c8opac n ∧
    ((appTickM false 1 (1 / 50))^[n]
        (c8init pos₀ vel₀ physVel₀ mass₀ area₀ size₀)).active = decide (n ≤ 148) := by
  intro n
  induction n with
  | zero =>
    intro _ _
    refine ⟨by norm_num [c8init], by simp [c8init], by norm_num [c8init, c8opac],
      by simp [c8init]⟩
  | succ m ih =>
    intro hn hfar
    have hm149 : m ≤ 149 := by omega
    have hm148 : m ≤ 148 := by omega
    obtain ⟨ihttl, ihfad, ihop, ihact⟩ := ih hm149 (fun k hk => hfar k (by omega))
    have hMact : ((appTickM false 1 (1 / 50))^[m]
        (c8init pos₀ vel₀ physVel₀ mass₀ area₀ size₀)).active = true := by
      rw [ihact]
      simp [hm148]
    have hMfar : ¬ len (((appTickM false 1 (1 / 50))^[m]
        (c8init pos₀ vel₀ physVel₀ mass₀ area₀ size₀)).pos) < earthRadius + 0.2 :=
      not_lt.mpr (hfar m (by omega))
    have hop_pos : 0 < c8opac m := by
      unfold c8opac
      split_ifs with h1
      · norm_num
      · have h2 : (m:ℝ) ≤ 148 := by exact_mod_cast hm148
        have h3 : (0:ℝ) < 1 / 100 := by norm_num
        nlinarith
    simp only [Function.iterate_succ_apply', appTickM]
    rw [appTickMeteor_far 1 (1 / 50)
      ((appTickM false 1 (1 / 50))^[m] (c8init pos₀ vel₀ physVel₀ mass₀ area₀ size₀))
      hMact hMfar]
    dsimp only
    rw [ihttl, ihfad, ihop, ihact]
    by_cases h50 : 50 ≤ m + 1
    · have hm49 : 49 ≤ m := by omega
      have hm49r : (49:ℝ) ≤ (m:ℝ) := by exact_mod_cast hm49
      have hc : 1 - (m:ℝ) / 50 - (1:ℝ) / 50 ≤ 0 := by linarith
      have hopne : ¬ (c8opac m = 0) := ne_of_gt hop_pos
      have hop_lb : 1 / 100 ≤ c8opac m := by
        unfold c8opac
        split_ifs with h1
        · norm_num
        · have h2 : (m:ℝ) ≤ 148 := by exact_mod_cast hm148
          linarith
      have hnewop : max 0 ((if c8opac m = 0 then 1 else c8opac m) - 0.5 * (1 / 50)) =
          c8opac (m + 1) := by
        rw [if_neg hopne, max_eq_right (by linarith)]
        rcases Nat.lt_or_ge m 50 with hm50 | hm50
        · have : m = 49 := by omega
          subst this
          norm_num [c8opac]
        · have h1 : ¬ (m ≤ 49) := by omega
          have h2 : ¬ (m + 1 ≤ 49) := by omega
          simp only [c8opac, if_neg h1, if_neg h2]
          push_cast
          ring
      refine ⟨by push_cast; ring, ?_, ?_, ?_⟩
      · rw [if_pos hc]
        simp [h50]
      · rw [if_pos hc]
        simp only [if_pos rfl]
        exact hnewop
      · rw [if_pos hc]
        simp only [if_pos rfl]
        rw [hnewop]
        by_cases h149 : m + 1 ≤ 148
        · have hpos2 : 0 < c8opac (m + 1) := by
            unfold c8opac
            split_ifs with h1
            · norm_num
            · have h2 : ((m:ℝ) + 1) ≤ 148 := by exact_mod_cast h149
              push_cast
              nlinarith
          rw [if_neg (not_le.mpr hpos2)]
          simp [hm148, h149]
        · have hm1149 : m + 1 = 149 := by omega
          have hzero : c8opac (m + 1) = 0 := by
            rw [hm1149]
            norm_num [c8opac]
          rw [hzero, if_pos le_rfl]
          simp [h149]
    · have hm48 : m + 1 ≤ 49 := by omega
      have hm48r : (m:ℝ) ≤ 48 := by exact_mod_cast (by omega : m ≤ 48)
      have hc : ¬ (1 - (m:ℝ) / 50 - (1:ℝ) / 50 ≤ 0) := by
        push_neg
        linarith
      have hfadf : decide (50 ≤ m) = false := by simp; omega
      refine ⟨by push_cast; ring, ?_, ?_, ?_⟩
      · rw [if_neg hc, hfadf]
        simp
        omega
      · rw [if_neg hc, hfadf]
        simp only [Bool.false_eq_true, if_false]
        unfold c8opac
        rw [if_pos (by omega : m ≤ 49), if_pos (by omega : m + 1 ≤ 49)]
      · rw [if_neg hc, hfadf]
        simp only [Bool.false_eq_true, if_false]
        simp [hm148]
        omega

theorem appTickM_inactive_fix (realistic : Bool) (ss dt : ℝ) (m : Meteor)
    (h : m.active = false) : appTickM realistic ss dt m = m := by
  unfold appTickM
  rw [appTickMeteor_inactive realistic ss dt m h]

/-- After deactivation the state is frozen. -/
theorem c8_frozen (pos₀ vel₀ physVel₀ : Vec3) (mass₀ area₀ size₀ : ℝ)
    (hinact : ((appTickM false 1 (1 / 50))^[149]
      (c8init pos₀ vel₀ physVel₀ mass₀ area₀ size₀)).active = false) :
    ∀ j, (appTickM false 1 (1 / 50))^[149 + j]
        (c8init pos₀ vel₀ physVel₀ mass₀ area₀ size₀) =
      (appTickM false 1 (1 / 50))^[149]
        (c8init pos₀ vel₀ physVel₀ mass₀ area₀ size₀) := by
  intro j
  induction j with
  | zero => rfl
  | succ k ih =>
    have : 149 + (k + 1) = (149 + k) + 1 := by omega
    rw [this, Function.iterate_succ_apply', ih,
      appTickM_inactive_fix false 1 (1 / 50) _ hinact]

/-- C8: the scenario projectile (TTL 1.0 s, per-tick `dt = 1/50`, a
trajectory that never comes within `earthRadius + 0.2` of the center) is
Flying for every tick before simulated time 1.0 s, transitions to Fading
exactly at tick 50 (t = 1.0 s, where its TTL reaches 0), loses opacity at
the fixed rate `0.5` per simulated second (`1/100` per tick), transitions
to Removed exactly when the opacity reaches 0 (tick 149), and never emits
an impact event. -/
theorem c8_ttl_fade_lifecycle (pos₀ vel₀ physVel₀ : Vec3) (mass₀ area₀ size₀ : ℝ)
    (hfar : ∀ k, k ≤ 148 → earthRadius + 0.2 ≤
      len (((appTickM false 1 (1 / 50))^[k]
        (c8init pos₀ vel₀ physVel₀ mass₀ area₀ size₀)).pos)) :
    (∀ k, k ≤ 49 →
      ((appTickM false 1 (1 / 50))^[k]
        (c8init pos₀ vel₀ physVel₀ mass₀ area₀ size₀)).fading = false ∧
      ((appTickM false 1 (1 / 50))^[k]
        (c8init pos₀ vel₀ physVel₀ mass₀ area₀ size₀)).active = true) ∧
    (((appTickM false 1 (1 / 50))^[50]
        (c8init pos₀ vel₀ physVel₀ mass₀ area₀ size₀)).ttl = 0 ∧
      ((appTickM false 1 (1 / 50))^[50]
        (c8init pos₀ vel₀ physVel₀ mass₀ area₀ size₀)).fading = true ∧
      ((appTickM false 1 (1 / 50))^[50]
        (c8init pos₀ vel₀ physVel₀ mass₀ area₀ size₀)).active = true) ∧
    (∀ k, 50 ≤ k → k ≤ 148 →
      ((appTickM false 1 (1 / 50))^[k]
        (c8init pos₀ vel₀ physVel₀ mass₀ area₀ size₀)).opacity =
          1 - ((k : ℝ) - 49) / 100 ∧
      ((appTickM false 1 (1 / 50))^[k]
        (c8init pos₀ vel₀ physVel₀ mass₀ area₀ size₀)).active = true) ∧
    (((appTickM false 1 (1 / 50))^[149]
        (c8init pos₀ vel₀ physVel₀ mass₀ area₀ size₀)).opacity = 0 ∧
      ((appTickM false 1 (1 / 50))^[149]
        (c8init pos₀ vel₀ physVel₀ mass₀ area₀ size₀)).active = false) ∧
    (∀ n, (appTickMeteor false 1 (1 / 50) ((appTickM false 1 (1 / 50))^[n]
        (c8init pos₀ vel₀ physVel₀ mass₀ area₀ size₀))).2 = none) := by
  have hlife : ∀ n, n ≤ 149 →
      ((appTickM false 1 (1 / 50))^[n]
          (c8init pos₀ vel₀ physVel₀ mass₀ area₀ size₀)).ttl = 1 - (n : ℝ) / 50 ∧
      ((appTickM false 1 (1 / 50))^[n]
          (c8init pos₀ vel₀ physVel₀ mass₀ area₀ size₀)).fading = decide (50 ≤ n) ∧
      ((appTickM false 1 (1 / 50))^[n]
          (c8init pos₀ vel₀ physVel₀ mass₀ area₀ size₀)).opacity = c8opac n ∧
      ((appTickM false 1 (1 / 50))^[n]
          (c8init pos₀ vel₀ physVel₀ mass₀ area₀ size₀)).active = decide (n ≤ 148) :=
    fun n hn => c8_lifecycle pos₀ vel₀ physVel₀ mass₀ area₀ size₀ n hn
      (fun k hk => hfar k (by omega))
  have hinact : ((appTickM false 1 (1 / 50))^[149]
      (c8init pos₀ vel₀ physVel₀ mass₀ area₀ size₀)).active = false := by
    rw [(hlife 149 le_rfl).2.2.2]
    simp
  refine ⟨?_, ?_, ?_, ?_, ?_⟩
  · intro k hk
    obtain ⟨_, hf, _, ha⟩ := hlife k (by omega)
    refine ⟨?_, ?_⟩
    · rw [hf]; simp; omega
    · rw [ha]; simp; omega
  · obtain ⟨ht, hf, _, ha⟩ := hlife 50 (by omega)
    refine ⟨?_, ?_, ?_⟩
    · rw [ht]; norm_num
    · rw [hf]; simp
    · rw [ha]; simp
  · intro k hk1 hk2
    obtain ⟨_, _, ho, ha⟩ := hlife k (by omega)
    refine ⟨?_, ?_⟩
    · rw [ho]
      unfold c8opac
      rw [if_neg (by omega)]
    · rw [ha]; simp; omega
  · obtain ⟨_, _, ho, ha⟩ := hlife 149 le_rfl
    refine ⟨?_, ?_⟩
    · rw [ho]; norm_num [c8opac]
    · exact hinact
  · intro n
    rcases Nat.lt_or_ge n 149 with hlt | hge
    · have hact : ((appTickM false 1 (1 / 50))^[n]
          (c8init pos₀ vel₀ physVel₀ mass₀ area₀ size₀)).active = true := by
        rw [(hlife n (by omega)).2.2.2]
        simp
        omega
      rw [appTickMeteor_far 1 (1 / 50) _ hact
        (not_lt.mpr (hfar n (by omega)))]
    · obtain ⟨j, rfl⟩ : ∃ j, n = 149 + j := ⟨n - 149, by omega⟩
      rw [c8_frozen pos₀ vel₀ physVel₀ mass₀ area₀ size₀ hinact j,
        appTickMeteor_inactive false 1 (1 / 50) _ hinact]

/-- One live Arcade step on the positive x-axis with inward velocity, in
scalar form: the inward speed grows by `g/x^2` and the radius shrinks by
the new speed. -/
theorem arcadeEulerStep_axis {x : ℝ} (hx : 0 < x) (w : ℝ) :
    arcadeEulerStep 1 ((⟨x, 0, 0⟩ : Vec3), (⟨-w, 0, 0⟩ : Vec3)) =
      (⟨x - (w + gravityStrength / (x * x)), 0, 0⟩,
       ⟨-(w + gravityStrength / (x * x)), 0, 0⟩) := by
  unfold arcadeEulerStep
  rw [arcadeAccel_axis_pos hx]
  simp only [mk_smul, mk_add, one_mul, mul_zero, add_zero, zero_add,
    Prod.mk.injEq, Vec3.mk.injEq, and_true, true_and]
  constructor <;> ring

/-- Trajectory bounds for the concrete scenario launch (rest at radius
100, masses and areas irrelevant to the Arcade force): after `j <= k <= 149`
frames the projectile is still on the positive x-axis, its inward speed is
at most `3e-6` per frame elapsed, and its radius has dropped by at most
`3e-6 * j^2`, so it stays far outside the detection threshold. -/
theorem c8far_aux : ∀ k, k ≤ 149 → ∀ j, j ≤ k →
    ∃ x w : ℝ,
      ((appTickM false 1 (1 / 50))^[j]
        (c8init ⟨100, 0, 0⟩ 0 0 196 1 (1 / 2))).pos = ⟨x, 0, 0⟩ ∧
      ((appTickM false 1 (1 / 50))^[j]
        (c8init ⟨100, 0, 0⟩ 0 0 196 1 (1 / 2))).vel = ⟨-w, 0, 0⟩ ∧
      0 ≤ w ∧ w ≤ (j : ℝ) * 3e-6 ∧
      100 - ((j : ℝ) * (j : ℝ)) * 3e-6 ≤ x ∧ x ≤ 100 := by
  intro k
  induction k with
  | zero =>
    intro _ j hj
    have hj0 : j = 0 := by omega
    subst hj0
    refine ⟨100, 0, rfl, ?_, le_rfl, by norm_num, by norm_num, le_rfl⟩
    show (0 : Vec3) = ⟨-0, 0, 0⟩
    ext <;> simp
  | succ n ih =>
    intro hk j hj
    rcases Nat.lt_or_ge j (n + 1) with hlt | hge
    · exact ih (by omega) j (by omega)
    have hjeq : j = n + 1 := by omega
    subst hjeq
    obtain ⟨x, w, hpos, hvel, hw0, hwub, hxlb, hxub⟩ := ih (by omega) n le_rfl
    have hn148 : n ≤ 148 := by omega
    have hncast : (n : ℝ) ≤ 148 := by exact_mod_cast hn148
    have hnn : (n : ℝ) * (n : ℝ) ≤ 148 * 148 := by
      nlinarith [Nat.cast_nonneg (α := ℝ) n]
    have hx99 : (99.9 : ℝ) ≤ x := by linarith
    have hxpos : (0 : ℝ) < x := by linarith
    have hfarall : ∀ m, m < n + 1 → earthRadius + 0.2 ≤
        len (((appTickM false 1 (1 / 50))^[m]
          (c8init ⟨100, 0, 0⟩ 0 0 196 1 (1 / 2))).pos) := by
      intro m hm
      obtain ⟨xm, wm, hposm, _, _, _, hxmlb, _⟩ := ih (by omega) m (by omega)
      have hmcast : (m : ℝ) ≤ 148 := by exact_mod_cast (by omega : m ≤ 148)
      have hmm : (m : ℝ) * (m : ℝ) ≤ 148 * 148 := by
        nlinarith [Nat.cast_nonneg (α := ℝ) m]
      have hxm : (99.9 : ℝ) ≤ xm := by linarith
      rw [hposm, len_axis_x (by linarith)]
      have hconst : earthRadius + 0.2 ≤ (99.9 : ℝ) := by norm_num [earthRadius]
      linarith
    have hact : ((appTickM false 1 (1 / 50))^[n]
        (c8init ⟨100, 0, 0⟩ 0 0 196 1 (1 / 2))).active = true := by
      rw [(c8_lifecycle ⟨100, 0, 0⟩ 0 0 196 1 (1 / 2) n (by omega)
        (fun m hm => hfarall m (by omega))).2.2.2]
      simp
      omega
    have hfarn : ¬ len (((appTickM false 1 (1 / 50))^[n]
        (c8init ⟨100, 0, 0⟩ 0 0 196 1 (1 / 2))).pos) < earthRadius + 0.2 :=
      not_lt.mpr (hfarall n (by omega))
    have hgpos : (0 : ℝ) ≤ gravityStrength / (x * x) := by
      have : (0 : ℝ) ≤ gravityStrength := by norm_num [gravityStrength]
      positivity
    have hgub : gravityStrength / (x * x) ≤ 3e-6 := by
      rw [gravityStrength, div_le_iff₀ (by positivity)]
      nlinarith
    refine ⟨x - (w + gravityStrength / (x * x)), w + gravityStrength / (x * x),
      ?_, ?_, by linarith, ?_, ?_, by linarith⟩
    · rw [Function.iterate_succ_apply']
      simp only [appTickM]
      rw [appTickMeteor_far 1 (1 / 50) _ hact hfarn]
      dsimp only
      rw [hpos, hvel, arcadeEulerStep_axis hxpos w]
    · rw [Function.iterate_succ_apply']
      simp only [appTickM]
      rw [appTickMeteor_far 1 (1 / 50) _ hact hfarn]
      dsimp only
      rw [hpos, hvel, arcadeEulerStep_axis hxpos w]
    · push_cast
      linarith
    · push_cast
      nlinarith [Nat.cast_nonneg (α := ℝ) n]

theorem c8_witness :
    ((appTickM false 1 (1 / 50))^[50]
      (c8init ⟨100, 0, 0⟩ 0 0 196 1 (1 / 2))).ttl = 0 ∧
    ((appTickM false 1 (1 / 50))^[50]
      (c8init ⟨100, 0, 0⟩ 0 0 196 1 (1 / 2))).fading = true ∧
    ((appTickM false 1 (1 / 50))^[49]
      (c8init ⟨100, 0, 0⟩ 0 0 196 1 (1 / 2))).fading = false ∧
    ((appTickM false 1 (1 / 50))^[149]
      (c8init ⟨100, 0, 0⟩ 0 0 196 1 (1 / 2))).active = false ∧
    ((appTickM false 1 (1 / 50))^[149]
      (c8init ⟨100, 0, 0⟩ 0 0 196 1 (1 / 2))).opacity = 0 ∧
    (appTickMeteor false 1 (1 / 50) ((appTickM false 1 (1 / 50))^[150]
      (c8init ⟨100, 0, 0⟩ 0 0 196 1 (1 / 2)))).2 = none := by
  have hfar : ∀ k, k ≤ 148 → earthRadius + 0.2 ≤
      len (((appTickM false 1 (1 / 50))^[k]
        (c8init ⟨100, 0, 0⟩ 0 0 196 1 (1 / 2))).pos) := by
    intro k hk
    obtain ⟨x, w, hpos, _, _, _, hxlb, _⟩ := c8far_aux 148 (by omega) k hk
    have hkcast : (k : ℝ) ≤ 148 := by exact_mod_cast hk
    have hkk : (k : ℝ) * (k : ℝ) ≤ 148 * 148 := by
      nlinarith [Nat.cast_nonneg (α := ℝ) k]
    have hx99 : (99.9 : ℝ) ≤ x := by linarith
    rw [hpos, len_axis_x (by linarith)]
    have hconst : earthRadius + 0.2 ≤ (99.9 : ℝ) := by norm_num [earthRadius]
    linarith
  have H := c8_ttl_fade_lifecycle ⟨100, 0, 0⟩ 0 0 196 1 (1 / 2) hfar
  exact ⟨H.2.1.1, H.2.1.2.1, (H.1 49 (by omega)).1, H.2.2.2.1.2,
    H.2.2.2.1.1, H.2.2.2.2 150⟩

end
